import Mathlib

/-!
# Upload thread of the meeting recorder

A shallow embedding of `src/uploadthread.cpp` (class `UploadThread`) and theorems about it.

The thread talks to the outside through Qt signals and through calls into libssh2, the socket
layer and the C file API.  The embedding makes both visible: every function returns the list of
`Event`s it produces, in program order, where an event is either an emitted signal or a call that
was made.  The answers of the outside (return codes, the local directory listing, the password the
user types, ...) are the fields of a `World`; the functions are pure in the thread and the world.

Conventions
* `QString` is `String`; `QString::arg` is insertion of the argument at the place marker, and a
  `const char*` turned back into a `QString` is the same text (exact for ASCII names).
* `int`, `size_t` and `long long` values are `Int` and `Nat`, with the wrap-around written out
  where the source does arithmetic on them (`sizeSub`, `toInt64`).  The header that declares the
  members and signals is not part of the sources at hand: `buffersize` is kept as a field of the
  thread (the constructor sets it to `1024*100`), and `nBlocks` carries the value of the
  expression it is given.
* `fread` delivers the next `min(size, rest)` bytes of the file.
* `passwordNeeded.wait` returns when the observer has called `setPassword`; the string it passed
  is `World.setPassword`.
* the two loops of `processFile` can spin for ever (a write that keeps answering `0`), so they
  carry a bound `fuel` on the number of iterations; a result records whether the bound was hit.
-/

namespace MeetingRecorder

/-! ## Events -/

/-- Calls into libssh2, the socket layer and the C file API, with the arguments that matter. -/
inductive Call where
  | libssh2_init
  | socket
  | inet_addr (host : String)
  | connect
  | libssh2_session_init
  | libssh2_session_set_blocking
  | libssh2_session_handshake
  | libssh2_hostkey_hash
  | libssh2_agent_init
  | libssh2_agent_connect
  | libssh2_agent_list_identities
  | libssh2_agent_get_identity
  | libssh2_agent_userauth (user comment : String)
  | libssh2_agent_disconnect
  | libssh2_agent_free
  | libssh2_userauth_publickey_fromfile (user pubkey prikey passphrase : String)
  | libssh2_userauth_password (user password : String)
  | libssh2_sftp_init
  | libssh2_sftp_stat (path : String)
  | libssh2_sftp_mkdir (path : String) (mode : Nat)
  | fopen (path : String)
  | libssh2_sftp_open (path : String) (flags mode : Nat)
  | fread (size got : Nat)
  | libssh2_sftp_write (buf : List Nat) (rc : Int)
  | libssh2_sftp_close
  | fclose
  | libssh2_sftp_shutdown
  | libssh2_session_disconnect
  | libssh2_session_free
  | close
  | libssh2_exit
  deriving DecidableEq, Repr

/-- What a run produces, in order: the five signals of `UploadThread` and the calls it makes. -/
inductive Event where
  | uploadMessage (text : String)
  | nBlocks (n : Int)
  | blockSent
  | passwordRequested
  | uploadFinished
  | call (c : Call)
  deriving DecidableEq, Repr

/-! ## The thread object and the outside world -/

/-- The data members of `UploadThread` that the code in `uploadthread.cpp` reads or writes. -/
structure UploadThread where
  directory : String
  buffersize : Int
  server_ip : String
  server_path : String
  username : String
  password : String
  server_path_user : String
  server_path_meeting : String
  deriving DecidableEq, Repr

/-- Constructor `UploadThread::UploadThread(QString _dir)`, source lines 39-47. -/
def UploadThread.new (_dir : String) : UploadThread :=
  { directory := _dir
    buffersize := 1024 * 100
    server_ip := ""
    server_path := ""
    username := ""
    password := ""
    server_path_user := ""
    server_path_meeting := "" }

/-- `UploadThread::setPreferences`, source lines 383-388. -/
def UploadThread.setPreferences (t : UploadThread) (_un _ip _sp : String) : UploadThread :=
  { t with username := _un, server_ip := _ip, server_path := _sp }

/-- `UploadThread::setPassword`, source lines 392-397: stores the password; the `wakeAll` that
follows is what lets the waiting `run` continue. -/
def UploadThread.setPassword (t : UploadThread) (_password : String) : UploadThread :=
  { t with password := _password }

/-- A public key held by the ssh-agent (`struct libssh2_agent_publickey`), known by its comment. -/
structure Identity where
  comment : String
  deriving DecidableEq, Repr

/-- An entry of `QDir::entryList()` with the filter `NoDotAndDotDot|Files`: its name, what
`QFileInfo::size()` reports for it, whether `fopen(..., "rb")` succeeds, and the bytes that
`fread` delivers. -/
structure LocalFile where
  name : String
  size : Int
  fopen : Bool
  content : List Nat
  deriving DecidableEq, Repr

/-- The remote side seen through `libssh2_sftp_stat` and `libssh2_sftp_mkdir`: the set of paths
that exist, and the status the server gives to a request to create an absent path. -/
structure Remote where
  paths : List String
  mkdirStatus : String → Int

/-- The answers of everything outside the thread during one run.

Return codes are the values the source tests (`0` is success for the `int` results, `true` is a
non-null pointer).  `libssh2_agent_get_identity prev` gives the code and the identity for the
previous identity `prev` (`none` for `NULL`); `libssh2_agent_userauth user identity` and
`libssh2_userauth_password user password` give the status of the attempt; `setPassword` is the
string the observer passes to `UploadThread::setPassword` while `run` waits;
`libssh2_sftp_write path k n` is the answer of the `k`-th write on the handle opened for `path`
when `n` bytes are offered. -/
structure World where
  libssh2_init : Int
  connect : Int
  libssh2_session_init : Bool
  libssh2_session_handshake : Int
  libssh2_hostkey_hash : Nat → Nat
  entryList : List LocalFile
  homePath : String
  libssh2_agent_init : Bool
  libssh2_agent_connect : Int
  libssh2_agent_list_identities : Int
  libssh2_agent_get_identity : Option Identity → Int × Identity
  libssh2_agent_userauth : String → Identity → Int
  libssh2_userauth_publickey_fromfile : Int
  setPassword : String
  libssh2_userauth_password : String → String → Int
  libssh2_sftp_init : Bool
  remote : Remote
  libssh2_sftp_open : String → Bool
  libssh2_sftp_write : String → Nat → Nat → Int

/-! ## Library constants and small helpers -/

/-- Directory mode `S_IRWXU|S_IRGRP|S_IXGRP|S_IROTH|S_IXOTH` = 0755. -/
def mkdirMode : Nat := 448 + 32 + 8 + 4 + 1

/-- Open flags `LIBSSH2_FXF_WRITE|LIBSSH2_FXF_CREAT|LIBSSH2_FXF_TRUNC`. -/
def openFlags : Nat := 2 + 8 + 16

/-- File mode `S_IRUSR|S_IWUSR|S_IRGRP|S_IROTH` = 0644. -/
def openMode : Nat := 256 + 128 + 32 + 4

/-- Status of an SFTP request the server refuses (`LIBSSH2_ERROR_SFTP_PROTOCOL`). -/
def LIBSSH2_ERROR_SFTP_PROTOCOL : Int := -31

/-- `QString::startsWith` (case sensitive). -/
def startsWith (s p : String) : Bool := p.toList.isPrefixOf s.toList

/-- `QString::section('/', -1)`: the field after the last `/`. -/
def sectionLast (s : String) : String :=
  String.mk (s.toList.reverse.takeWhile (fun c => c != '/')).reverse

/-- `QString::toLatin1`: characters outside Latin-1 become `?`. -/
def toLatin1 (s : String) : String :=
  String.mk (s.toList.map (fun c => if c.toNat < 256 then c else '?'))

/-- The test made on each of the three preferences in `run`: `x == "" || x.startsWith("MISSING")`. -/
def notSet (x : String) : Bool := x == "" || startsWith x "MISSING"

/-- `nread -= rc` on a `size_t`: subtraction modulo 2^64. -/
def sizeSub (nread : Nat) (rc : Int) : Nat := (((nread : Int) - rc) % 2 ^ 64).toNat

/-- A value stored in a `long long`: reduced into the range -2^63 .. 2^63-1. -/
def toInt64 (x : Int) : Int := (x + 2 ^ 63) % 2 ^ 64 - 2 ^ 63

/-! ## `checkDirectory` -/

/-- `libssh2_sftp_stat` on the remote model: 0 iff the path exists. -/
def Remote.stat (r : Remote) (path : String) : Int :=
  if path ∈ r.paths then 0 else LIBSSH2_ERROR_SFTP_PROTOCOL

/-- `libssh2_sftp_mkdir` on the remote model: refused for a path that exists; for an absent path
the server's status decides, and status 0 adds the path. -/
def Remote.mkdir (r : Remote) (path : String) : Int × Remote :=
  if path ∈ r.paths then (LIBSSH2_ERROR_SFTP_PROTOCOL, r)
  else if r.mkdirStatus path = 0 then (0, { r with paths := path :: r.paths })
  else (r.mkdirStatus path, r)

/-- Result of `checkDirectory`: the events, the returned `bool`, the remote side afterwards. -/
structure DirResult where
  events : List Event
  ok : Bool
  remote : Remote

/-- `UploadThread::checkDirectory`, source lines 214-239. -/
def checkDirectory (r : Remote) (dir : String) : DirResult :=
  let sftppath := toLatin1 dir
  let rc := r.stat sftppath
  let e0 := [Event.call (Call.libssh2_sftp_stat sftppath)]
  if rc ≠ 0 then
    let e1 := e0 ++ [Event.uploadMessage ("server path " ++ dir ++ " does not exist, creating it"),
                     Event.call (Call.libssh2_sftp_mkdir sftppath mkdirMode)]
    let m := r.mkdir sftppath
    if m.1 ≠ 0 then
      { events := e1 ++ [Event.uploadMessage ("libssh2_sftp_mkdir failed: (" ++ toString m.1 ++ ")")]
        ok := false
        remote := m.2 }
    else
      { events := e1, ok := true, remote := m.2 }
  else
    { events := e0 ++ [Event.uploadMessage ("server path " ++ dir ++ " exists")]
      ok := true
      remote := r }

/-! ## `trySshAgent` -/

/-- `UploadThread::shutdownAgent`, source lines 303-308: the two calls it makes; it returns `NULL`. -/
def shutdownAgent : List Event :=
  [Event.call Call.libssh2_agent_disconnect, Event.call Call.libssh2_agent_free]

/-- Result of `trySshAgent`: the events and whether the returned `LIBSSH2_AGENT*` is non-null. -/
structure AgentResult where
  events : List Event
  agent : Bool
  deriving DecidableEq, Repr

/-- `UploadThread::trySshAgent`, source lines 244-299.

Every path through the body of `while (1)` leaves the function or the loop (three
`return shutdownAgent(agent)` and one `break`), so the body runs once, with `prev_identity` still
`NULL`, and the assignment `prev_identity = identity` of line 295 is never reached. -/
def trySshAgent (t : UploadThread) (w : World) : AgentResult :=
  let e0 := [Event.uploadMessage "trying to authenticate with ssh-agent",
             Event.call Call.libssh2_agent_init]
  if !w.libssh2_agent_init then
    { events := e0 ++ [Event.uploadMessage "failure initializing ssh-agent support"]
                  ++ shutdownAgent
      agent := false }
  else
  let e1 := e0 ++ [Event.call Call.libssh2_agent_connect]
  if w.libssh2_agent_connect ≠ 0 then
    { events := e1 ++ [Event.uploadMessage "failure connecting to ssh-agent"] ++ shutdownAgent
      agent := false }
  else
  let e2 := e1 ++ [Event.call Call.libssh2_agent_list_identities]
  if w.libssh2_agent_list_identities ≠ 0 then
    { events := e2 ++ [Event.uploadMessage "failure requesting identities to ssh-agent"]
                  ++ shutdownAgent
      agent := false }
  else
  -- while (1), first and only pass: prev_identity = NULL
  let got := w.libssh2_agent_get_identity none
  let rc := got.1
  let identity := got.2
  let e3 := e2 ++ [Event.call Call.libssh2_agent_get_identity]
  if rc = 1 then
    { events := e3 ++ [Event.uploadMessage "failure due reaching end of public keys"]
                  ++ shutdownAgent
      agent := false }
  else
  if rc < 0 then
    { events := e3 ++ [Event.uploadMessage "failure in obtaining identity from ssh-agent"]
                  ++ shutdownAgent
      agent := false }
  else
  let e4 := e3 ++ [Event.call (Call.libssh2_agent_userauth t.username identity.comment)]
  if w.libssh2_agent_userauth t.username identity ≠ 0 then
    { events := e4 ++ [Event.uploadMessage ("authentication with username " ++ t.username
                          ++ " and public key " ++ identity.comment ++ " failed")]
                  ++ shutdownAgent
      agent := false }
  else
    { events := e4 ++ [Event.uploadMessage ("authentication with username " ++ t.username
                          ++ " and public key " ++ identity.comment ++ " succeeded")]
      agent := true }

/-! ## `processFile` -/

/-- State at the exit of one of the two loops of `processFile`: the events of the loop, the number
of writes made on the handle so far, the last value of `rc`, and whether the loop was left
(`false`: the iteration bound was hit first). -/
structure LoopResult where
  events : List Event
  writes : Nat
  rc : Int
  left : Bool
  deriving DecidableEq, Repr

/-- The inner `do ... while (nread)` of `processFile`, source lines 359-366.

`write k n` is the answer of the `k`-th `libssh2_sftp_write` on this handle when `n` bytes are
offered; `mem` holds the bytes `fread` just delivered, `ptr` is the cursor into it, `nread` the
count still to send.  The bytes offered are the `nread` bytes at `ptr`. -/
def writeLoop (write : Nat → Nat → Int) (mem : List Nat) :
    Nat → Nat → Nat → Nat → LoopResult
  | 0, k, _, _ => { events := [], writes := k, rc := 0, left := false }
  | fuel + 1, k, ptr, nread =>
    let rc := write k nread
    let e := Event.call (Call.libssh2_sftp_write ((mem.drop ptr).take nread) rc)
    if rc < 0 then
      { events := [e], writes := k + 1, rc := rc, left := true }
    else
      let ptr1 := ptr + rc.toNat
      let nread1 := sizeSub nread rc
      if nread1 ≠ 0 then
        let r := writeLoop write mem fuel (k + 1) ptr1 nread1
        { r with events := e :: r.events }
      else
        { events := [e], writes := k + 1, rc := rc, left := true }

/-- The outer `do ... while (rc > 0)` of `processFile`, source lines 351-369.

`size` is `sizeof(mem)`, `file` the bytes of the local file from the read position on; `fread`
delivers the next `min(size, rest)` of them. -/
def chunkLoop (write : Nat → Nat → Int) (size : Nat) :
    Nat → Nat → List Nat → LoopResult
  | 0, k, _ => { events := [], writes := k, rc := 0, left := false }
  | fuel + 1, k, file =>
    let mem := file.take size
    let nread := mem.length
    let e := Event.call (Call.fread size nread)
    if nread ≤ 0 then
      { events := [e], writes := k, rc := 0, left := true }
    else
      let w := writeLoop write mem fuel k 0 nread
      if !w.left then
        { w with events := e :: w.events }
      else
        let e1 := e :: w.events ++ [Event.blockSent]
        if w.rc > 0 then
          let r := chunkLoop write size fuel w.writes (file.drop size)
          { r with events := e1 ++ r.events }
        else
          { events := e1, writes := w.writes, rc := w.rc, left := true }

/-- Result of `processFile`: the events and the returned `bool`; `result = none` when the
iteration bound was hit inside the chunk loop, so that the function has not returned. -/
structure FileResult where
  events : List Event
  result : Option Bool
  deriving DecidableEq, Repr

/-- `UploadThread::processFile`, source lines 312-379, on the directory entry `f`
(`filename` is `f.name`). -/
def processFile (t : UploadThread) (w : World) (fuel : Nat) (f : LocalFile) : FileResult :=
  let lf := t.directory ++ "/" ++ f.name
  let loclfile := toLatin1 lf
  let e0 := [Event.call (Call.fopen loclfile)]
  if !f.fopen then
    { events := e0 ++ [Event.uploadMessage ("can't open local file " ++ loclfile)]
      result := some false }
  else
  let sp := t.server_path_meeting ++ "/" ++ f.name
  let sftppath := toLatin1 sp
  let e1 := e0 ++ [Event.uploadMessage ("opened local file " ++ loclfile),
                   Event.uploadMessage ("libssh2_sftp_open() for " ++ sftppath),
                   Event.call (Call.libssh2_sftp_open sftppath openFlags openMode)]
  if !w.libssh2_sftp_open sftppath then
    { events := e1 ++ [Event.uploadMessage "unable to open file with SFTP",
                       Event.call Call.fclose]
      result := some false }
  else
  let e2 := e1 ++ [Event.uploadMessage "libssh2_sftp_open() is done, now sending data"]
  let l := chunkLoop (w.libssh2_sftp_write sftppath) t.buffersize.toNat fuel 0 f.content
  if !l.left then
    { events := e2 ++ l.events, result := none }
  else
    { events := e2 ++ l.events ++ [Event.call Call.libssh2_sftp_close, Event.call Call.fclose,
                                   Event.uploadMessage "data sent successfully"]
      result := some true }

/-- The bytes the remote side accepts in one event: for a `libssh2_sftp_write` that answered
`rc`, the first `rc` bytes of the buffer it was given. -/
def acceptedBy : Event → List Nat
  | Event.call (Call.libssh2_sftp_write buf rc) => buf.take rc.toNat
  | _ => []

/-- The bytes the remote side accepted, read off a trace, in call order. -/
def bytesAccepted (es : List Event) : List Nat := es.flatMap acceptedBy

/-- Number of `blockSent` signals in a trace. -/
def blocksSent (es : List Event) : Nat := es.count Event.blockSent

/-! ## `run` -/

/-- The code after the label `shutdown:` of `run`, source lines 195-209; `agent` tells whether the
agent pointer is non-null there. -/
def shutdown (agent : Bool) : List Event :=
  (if agent then shutdownAgent else []) ++
  [Event.call Call.libssh2_session_disconnect,
   Event.call Call.libssh2_session_free,
   Event.call Call.close,
   Event.uploadMessage "all done",
   Event.call Call.libssh2_exit,
   Event.uploadMessage "uploadthread ending",
   Event.uploadFinished]

/-- The size pass of `run`, source lines 182-186: `totalsize += lf_info.size()` over the entries,
in a `long long`. -/
def totalsize (files : List LocalFile) : Int :=
  files.foldl (fun acc f => toInt64 (acc + f.size)) 0

/-- The argument of `emit nBlocks(...)`, source line 187: `totalsize/buffersize+1`, with the
truncating division of C++, in a `long long`. -/
def expectedBlocks (t : UploadThread) (files : List LocalFile) : Int :=
  toInt64 (Int.tdiv (totalsize files) t.buffersize + 1)

/-- A stretch of `run`: its events and whether control came out of it (`false`: the iteration
bound was hit inside a `processFile`, the run is still in there). -/
structure RunResult where
  events : List Event
  returned : Bool
  deriving DecidableEq, Repr

/-- The transfer loop of `run`, source lines 189-191.  `some true`: all files done, control falls
through to line 193; `some false`: a `processFile` returned `false`, `goto shutdown`. -/
def transferFiles (t : UploadThread) (w : World) (fuel : Nat) : List LocalFile → FileResult
  | [] => { events := [], result := some true }
  | f :: fs =>
    let r := processFile t w fuel f
    match r.result with
    | none => r
    | some false => r
    | some true =>
      let rest := transferFiles t w fuel fs
      { rest with events := r.events ++ rest.events }

/-- Source lines 170-193 of `run`: from `libssh2_sftp_init` to the label `shutdown:`. -/
def runSftp (t : UploadThread) (w : World) (fuel : Nat) : RunResult :=
  let e0 := [Event.uploadMessage "libssh2_sftp_init()!", Event.call Call.libssh2_sftp_init]
  if !w.libssh2_sftp_init then
    { events := e0 ++ [Event.uploadMessage "unable to init SFTP session"], returned := true }
  else
  let d1 := checkDirectory w.remote t.server_path_user
  if !d1.ok then
    { events := e0 ++ d1.events, returned := true }
  else
  let d2 := checkDirectory d1.remote t.server_path_meeting
  if !d2.ok then
    { events := e0 ++ d1.events ++ d2.events, returned := true }
  else
  let e1 := e0 ++ d1.events ++ d2.events ++ [Event.nBlocks (expectedBlocks t w.entryList)]
  let tr := transferFiles t w fuel w.entryList
  match tr.result with
  | none => { events := e1 ++ tr.events, returned := false }
  | some false => { events := e1 ++ tr.events, returned := true }
  | some true =>
    { events := e1 ++ tr.events ++ [Event.call Call.libssh2_sftp_shutdown], returned := true }

/-- Result of the authentication stretch of `run`: the events, whether control goes on to
`libssh2_sftp_init` (`false`: `goto shutdown`), whether the agent pointer is non-null, and the
thread object afterwards (its `password` may have been set). -/
structure AuthResult where
  events : List Event
  ok : Bool
  agent : Bool
  thread : UploadThread
  deriving DecidableEq, Repr

/-- Source lines 127-168 of `run`: ssh-agent, then the key pair, then the password.

At line 152 the thread waits until the observer calls `setPassword`; `w.setPassword` is the string
it passes. -/
def authenticate (t : UploadThread) (w : World) : AuthResult :=
  let a := trySshAgent t w
  if !a.agent then
    let pubkey := w.homePath ++ "/.ssh/id_rsa.pub"
    let prikey := w.homePath ++ "/.ssh/id_rsa"
    let e0 := a.events ++
      [Event.uploadMessage "ssh-agent failed or not found, trying authentication without it",
       Event.uploadMessage ("using public key: " ++ pubkey),
       Event.uploadMessage ("using private key: " ++ prikey),
       Event.call (Call.libssh2_userauth_publickey_fromfile t.username pubkey prikey "password")]
    let rc := w.libssh2_userauth_publickey_fromfile
    if rc ≠ 0 then
      let e1 := e0 ++
        [Event.uploadMessage ("authentication by public key failed: " ++ toString rc),
         Event.uploadMessage "trying to authenticate with password",
         Event.passwordRequested]
      let t1 := t.setPassword w.setPassword
      if t1.password = "" then
        { events := e1 ++ [Event.uploadMessage "authentication by password cancelled"]
          ok := false, agent := a.agent, thread := t1 }
      else
      let e2 := e1 ++ [Event.call (Call.libssh2_userauth_password t1.username t1.password)]
      if w.libssh2_userauth_password t1.username t1.password ≠ 0 then
        { events := e2 ++ [Event.uploadMessage "authentication by password failed"]
          ok := false, agent := a.agent, thread := t1 }
      else
        { events := e2 ++ [Event.uploadMessage "authentication by password successful"]
          ok := true, agent := a.agent, thread := t1 }
    else
      { events := e0 ++ [Event.uploadMessage "authentication by public key successful"]
        ok := true, agent := a.agent, thread := t }
  else
    { events := a.events, ok := true, agent := a.agent, thread := t }

/-- Source lines 127-210 of `run`: authentication, then `runSftp`, then the code at `shutdown:`. -/
def runAuth (t : UploadThread) (w : World) (fuel : Nat) : RunResult :=
  let a := authenticate t w
  if !a.ok then
    { events := a.events ++ shutdown a.agent, returned := true }
  else
    let s := runSftp a.thread w fuel
    { events := a.events ++ s.events ++ (if s.returned then shutdown a.agent else [])
      returned := s.returned }

/-- The text of the fingerprint message, source lines 112-117. -/
def fingerprintMessage (hash : Nat → Nat) : String :=
  (List.range 20).foldl (fun fp i => fp ++ toString (hash i) ++ " ") "fingerprint: "

/-- Source lines 68-69 of `run`: the two derived remote paths. -/
def setPaths (t : UploadThread) : UploadThread :=
  let server_path_user := t.server_path ++ "/" ++ t.username
  { t with server_path_user := server_path_user
           server_path_meeting := server_path_user ++ "/" ++ sectionLast t.directory }

/-- `UploadThread::run`, source lines 52-210. -/
def run (t : UploadThread) (w : World) (fuel : Nat) : RunResult :=
  let e0 := [Event.uploadMessage "uploadthread starting"]
  if notSet t.username then
    { events := e0 ++ [Event.uploadMessage "username not set, exiting"], returned := true }
  else
  if notSet t.server_ip then
    { events := e0 ++ [Event.uploadMessage "server_ip not set, exiting"], returned := true }
  else
  if notSet t.server_path then
    { events := e0 ++ [Event.uploadMessage "server_path not set, exiting"], returned := true }
  else
  let t1 := setPaths t
  let e1 := e0 ++ [Event.uploadMessage ("target directory: " ++ t1.server_path_meeting),
                   Event.call Call.libssh2_init]
  let rc := w.libssh2_init
  if rc ≠ 0 then
    { events := e1 ++ [Event.uploadMessage ("libssh2_init() failed (" ++ toString rc
                                             ++ "), exiting")]
      returned := true }
  else
  let e2 := e1 ++ [Event.uploadMessage "libssh2 initialization successful",
                   Event.call Call.socket,
                   Event.call (Call.inet_addr t1.server_ip),
                   Event.call Call.connect]
  if w.connect ≠ 0 then
    { events := e2 ++ [Event.uploadMessage "failed to connect(), exiting"], returned := true }
  else
  let e3 := e2 ++ [Event.uploadMessage "connection established",
                   Event.call Call.libssh2_session_init]
  if !w.libssh2_session_init then
    { events := e3 ++ [Event.uploadMessage "libssh2_session_init() failed, exiting"]
      returned := true }
  else
  let e4 := e3 ++ [Event.uploadMessage "libssh2 session initialization successful",
                   Event.call Call.libssh2_session_set_blocking,
                   Event.call Call.libssh2_session_handshake]
  let rc := w.libssh2_session_handshake
  if rc ≠ 0 then
    { events := e4 ++ [Event.uploadMessage ("failure establishing SSH session (" ++ toString rc
                                             ++ "), exiting")]
      returned := true }
  else
  let e5 := e4 ++ [Event.uploadMessage "session established",
                   Event.call Call.libssh2_hostkey_hash,
                   Event.uploadMessage (fingerprintMessage w.libssh2_hostkey_hash)]
  let a := runAuth t1 w fuel
  { events := e5 ++ a.events, returned := a.returned }

/-! ## Concrete inputs -/

/-- A thread as the application sets it up: constructor, then `setPreferences`. -/
def demoThread : UploadThread :=
  (UploadThread.new "/home/u/meetings/m1").setPreferences "u" "10.0.0.1" "/srv/meetings"

/-- The thread `demoThread` with a buffer of two bytes, to keep traces short. -/
def smallThread : UploadThread := { demoThread with buffersize := 2 }

/-- `libssh2_agent_get_identity` for an agent that holds the keys `ids`: 0 and the first key for
`prev = NULL`, 0 and the key after `prev` otherwise, and 1 at the end of the list. -/
def agentHolding (ids : List Identity) : Option Identity → Int × Identity
  | none =>
    match ids with
    | [] => (1, { comment := "" })
    | i :: _ => (0, i)
  | some prev =>
    match (ids.dropWhile (fun i => i != prev)).drop 1 with
    | [] => (1, { comment := "" })
    | i :: _ => (0, i)

/-- A world in which everything succeeds at the first attempt: the agent holds one key that the
server accepts, the remote directories are absent and can be created, every write takes all the
bytes offered.  The directory holds files of 0, 2 and 3 bytes. -/
def demoWorld : World :=
  { libssh2_init := 0
    connect := 0
    libssh2_session_init := true
    libssh2_session_handshake := 0
    libssh2_hostkey_hash := fun i => i
    entryList := [{ name := "empty.txt", size := 0, fopen := true, content := [] },
                  { name := "audio.wav", size := 2, fopen := true, content := [82, 73] },
                  { name := "video.avi", size := 3, fopen := true, content := [70, 70, 65] }]
    homePath := "/home/u"
    libssh2_agent_init := true
    libssh2_agent_connect := 0
    libssh2_agent_list_identities := 0
    libssh2_agent_get_identity := agentHolding [{ comment := "key1" }]
    libssh2_agent_userauth := fun _ _ => 0
    libssh2_userauth_publickey_fromfile := 0
    setPassword := "secret"
    libssh2_userauth_password := fun _ _ => 0
    libssh2_sftp_init := true
    remote := { paths := [], mkdirStatus := fun _ => 0 }
    libssh2_sftp_open := fun _ => true
    libssh2_sftp_write := fun _ _ n => n }

/-! ## Kinds of events

Each predicate lists the events one piece of the code can produce; they serve to tell which
events a stretch of a trace cannot contain. -/

/-- Events of `run` before authentication starts (source lines 54-118). -/
def byConnect : Event → Bool
  | Event.uploadMessage _ => true
  | Event.call Call.libssh2_init => true
  | Event.call Call.socket => true
  | Event.call (Call.inet_addr _) => true
  | Event.call Call.connect => true
  | Event.call Call.libssh2_session_init => true
  | Event.call Call.libssh2_session_set_blocking => true
  | Event.call Call.libssh2_session_handshake => true
  | Event.call Call.libssh2_hostkey_hash => true
  | _ => false

/-- Events of `trySshAgent`. -/
def byAgent : Event → Bool
  | Event.uploadMessage _ => true
  | Event.call Call.libssh2_agent_init => true
  | Event.call Call.libssh2_agent_connect => true
  | Event.call Call.libssh2_agent_list_identities => true
  | Event.call Call.libssh2_agent_get_identity => true
  | Event.call (Call.libssh2_agent_userauth _ _) => true
  | Event.call Call.libssh2_agent_disconnect => true
  | Event.call Call.libssh2_agent_free => true
  | _ => false

/-- Events of the authentication stretch of `run`. -/
def byAuthenticate : Event → Bool
  | Event.passwordRequested => true
  | Event.call (Call.libssh2_userauth_publickey_fromfile _ _ _ _) => true
  | Event.call (Call.libssh2_userauth_password _ _) => true
  | e => byAgent e

/-- Events of `checkDirectory`. -/
def byCheckDirectory : Event → Bool
  | Event.uploadMessage _ => true
  | Event.call (Call.libssh2_sftp_stat _) => true
  | Event.call (Call.libssh2_sftp_mkdir _ _) => true
  | _ => false

/-- Events of `processFile`. -/
def byProcessFile : Event → Bool
  | Event.uploadMessage _ => true
  | Event.blockSent => true
  | Event.call (Call.fopen _) => true
  | Event.call (Call.libssh2_sftp_open _ _ _) => true
  | Event.call (Call.fread _ _) => true
  | Event.call (Call.libssh2_sftp_write _ _) => true
  | Event.call Call.libssh2_sftp_close => true
  | Event.call Call.fclose => true
  | _ => false

/-- Events of the code at the label `shutdown:`. -/
def byShutdown : Event → Bool
  | Event.uploadMessage _ => true
  | Event.uploadFinished => true
  | Event.call Call.libssh2_agent_disconnect => true
  | Event.call Call.libssh2_agent_free => true
  | Event.call Call.libssh2_session_disconnect => true
  | Event.call Call.libssh2_session_free => true
  | Event.call Call.close => true
  | Event.call Call.libssh2_exit => true
  | _ => false

/-- Events of `run` from `libssh2_sftp_init` up to the second `checkDirectory`. -/
def byEnsure : Event → Bool
  | Event.call Call.libssh2_sftp_init => true
  | e => byCheckDirectory e

/-- Events of `run` after `emit nBlocks`: the transfer loop, line 193 and the shutdown code. -/
def byTransfer : Event → Bool
  | Event.call Call.libssh2_sftp_shutdown => true
  | e => byProcessFile e || byShutdown e

/-- Events of `runSftp`. -/
def bySftp : Event → Bool
  | Event.nBlocks _ => true
  | Event.call Call.libssh2_sftp_shutdown => true
  | e => byEnsure e || byProcessFile e

/-- Events of `run` after authentication. -/
def afterAuth (e : Event) : Bool := bySftp e || byShutdown e


/-- Events of `run` before `emit nBlocks`. -/
def beforeTransfer (e : Event) : Bool := byConnect e || byAuthenticate e || byEnsure e

/-! ## Path conditions and further concrete inputs -/

/-- Every write takes at least one byte and at most what it is offered.  An answer may depend on
the number of the call and on the count offered, so every sequence of answers within these bounds
is the behaviour of some such `write`. -/
def WritesProgress (write : Nat → Nat → Int) : Prop :=
  ∀ k n, 0 < n → 1 ≤ write k n ∧ write k n ≤ n

/-- The condition under which `run` gets to line 127 (`trySshAgent`): the three preferences are
set and `libssh2_init`, `connect`, `libssh2_session_init`, `libssh2_session_handshake` succeed. -/
def reachesAuth (t : UploadThread) (w : World) : Prop :=
  notSet t.username = false ∧ notSet t.server_ip = false ∧ notSet t.server_path = false ∧
  w.libssh2_init = 0 ∧ w.connect = 0 ∧ w.libssh2_session_init = true ∧
  w.libssh2_session_handshake = 0

instance reachesAuth.decidable (t : UploadThread) (w : World) : Decidable (reachesAuth t w) := by
  unfold reachesAuth
  infer_instance

/-- The condition under which `run` gets to line 182 (the size pass): it reaches authentication,
authentication succeeds, `libssh2_sftp_init` succeeds and so do the two `checkDirectory` calls. -/
def reachesSizePass (t : UploadThread) (w : World) : Prop :=
  reachesAuth t w ∧ (authenticate (setPaths t) w).ok = true ∧ w.libssh2_sftp_init = true ∧
  (checkDirectory w.remote (setPaths t).server_path_user).ok = true ∧
  (checkDirectory (checkDirectory w.remote (setPaths t).server_path_user).remote
    (setPaths t).server_path_meeting).ok = true

instance reachesSizePass.decidable (t : UploadThread) (w : World) :
    Decidable (reachesSizePass t w) := by
  unfold reachesSizePass
  infer_instance

/-- A thread on which `setPreferences` was called with the placeholder of a missing user name. -/
def unsetThread : UploadThread :=
  (UploadThread.new "/home/u/meetings/m1").setPreferences "MISSING username" "10.0.0.1"
    "/srv/meetings"

/-- The world `demoWorld` with an agent that holds two keys, of which the server refuses the first
and accepts the second. -/
def twoKeyWorld : World :=
  { demoWorld with
    libssh2_agent_get_identity := agentHolding [{ comment := "old" }, { comment := "new" }]
    libssh2_agent_userauth := fun _ i => if i.comment = "new" then 0 else -18 }

/-- The world `demoWorld` with a server that answers every write with an error. -/
def failingWriteWorld : World := { demoWorld with libssh2_sftp_write := fun _ _ _ => -1 }

/-- The world `demoWorld` without agent and key pair, and a user who cancels the password
prompt. -/
def cancelWorld : World :=
  { demoWorld with
    libssh2_agent_init := false
    libssh2_userauth_publickey_fromfile := -18
    setPassword := "" }

/-- The world `demoWorld` with a server that takes one byte per write. -/
def slowWorld : World := { demoWorld with libssh2_sftp_write := fun _ _ _ => 1 }

/-- Number of `libssh2_sftp_mkdir` calls in a trace. -/
def mkdirAttempts (es : List Event) : Nat :=
  es.countP (fun e => match e with
    | Event.call (Call.libssh2_sftp_mkdir _ _) => true
    | _ => false)

/-- The world `demoWorld` without agent and key pair, and a user who types a password. -/
def passwordWorld : World :=
  { demoWorld with
    libssh2_agent_init := false
    libssh2_userauth_publickey_fromfile := -18 }

/-! # Theorems -/

theorem sizeSub_of_le (nread : Nat) (rc : Int) (h0 : 0 ≤ rc) (h1 : rc ≤ nread) (h2 : nread < 2 ^ 64) :
    sizeSub nread rc = nread - rc.toNat := by
  unfold sizeSub
  have h3 : ((nread : Int) - rc) % 2 ^ 64 = (nread : Int) - rc := by
    apply Int.emod_eq_of_lt <;> omega
  rw [h3]; omega

theorem bytesAccepted_append (a b : List Event) :
    bytesAccepted (a ++ b) = bytesAccepted a ++ bytesAccepted b := by
  simp [bytesAccepted]

theorem bytesAccepted_cons (e : Event) (es : List Event) :
    bytesAccepted (e :: es) = acceptedBy e ++ bytesAccepted es := by
  simp [bytesAccepted]

theorem blocksSent_append (a b : List Event) :
    blocksSent (a ++ b) = blocksSent a + blocksSent b := by
  simp [blocksSent]

theorem writeLoop_of_progress (write : Nat → Nat → Int) (hw : WritesProgress write)
    (mem : List Nat) :
    ∀ fuel k ptr nread, 0 < nread → nread ≤ fuel → ptr + nread = mem.length → nread < 2 ^ 64 →
      (writeLoop write mem fuel k ptr nread).left = true ∧
      0 < (writeLoop write mem fuel k ptr nread).rc ∧
      bytesAccepted (writeLoop write mem fuel k ptr nread).events = mem.drop ptr ∧
      blocksSent (writeLoop write mem fuel k ptr nread).events = 0 := by
  intro fuel
  induction fuel with
  | zero => intro k ptr nread h0 h1; omega
  | succ fuel ih =>
    intro k ptr nread h0 h1 h2 h3
    obtain ⟨hlo, hhi⟩ := hw k nread h0
    have hsub := sizeSub_of_le nread (write k nread) (by omega) hhi h3
    have hneg : ¬ write k nread < 0 := by omega
    have htake : List.take (write k nread).toNat (List.take nread (List.drop ptr mem))
        = List.take (write k nread).toNat (List.drop ptr mem) := by
      rw [List.take_take]; congr 1; omega
    unfold writeLoop
    simp only [hneg, if_false]
    by_cases hz : sizeSub nread (write k nread) ≠ 0
    · rw [if_pos hz]
      have hrec := ih (k + 1) (ptr + (write k nread).toNat) (sizeSub nread (write k nread))
        (by omega) (by omega) (by omega) (by omega)
      obtain ⟨r1, r2, r3, r4⟩ := hrec
      refine ⟨r1, r2, ?_, ?_⟩
      · rw [bytesAccepted_cons, r3]
        simp only [acceptedBy]
        rw [htake, ← List.drop_drop, List.take_append_drop]
      · simp only [blocksSent] at r4 ⊢
        rw [List.count_cons, r4]; simp
    · rw [if_neg hz]
      refine ⟨rfl, by show 0 < write k nread; omega, ?_, ?_⟩
      · rw [bytesAccepted_cons]
        simp only [acceptedBy, bytesAccepted, List.flatMap_nil, List.append_nil]
        rw [htake]
        apply List.take_of_length_le
        simp only [List.length_drop]; omega
      · simp [blocksSent]


theorem chunkLoop_of_progress (write : Nat → Nat → Int) (hw : WritesProgress write)
    (size : Nat) (hpos : 0 < size) (hsize : size < 2 ^ 64) :
    ∀ fuel k file, List.length file < fuel →
      (chunkLoop write size fuel k file).left = true ∧
      bytesAccepted (chunkLoop write size fuel k file).events = file ∧
      blocksSent (chunkLoop write size fuel k file).events = (file.length + size - 1) / size := by
  intro fuel
  induction fuel with
  | zero => intro k file h; omega
  | succ fuel ih =>
    intro k file hlen
    unfold chunkLoop
    by_cases hz : (List.take size file).length ≤ 0
    · simp only [hz, if_true]
      have hnil : file = [] := by
        rw [List.length_take] at hz
        have : file.length = 0 := by omega
        exact List.length_eq_zero.mp this
      subst hnil
      refine ⟨by simp, by simp [bytesAccepted, acceptedBy], ?_⟩
      simp only [blocksSent, List.length_nil, Nat.zero_add]
      rw [Nat.div_eq_of_lt (by omega)]
      simp
    · simp only [hz, if_false]
      have hlt : (List.take size file).length = min size file.length := List.length_take _ _
      obtain ⟨w1, w2, w3, w4⟩ := writeLoop_of_progress write hw (List.take size file) fuel k 0
        (List.take size file).length (by omega) (by omega) (by omega) (by omega)
      simp only [w1, Bool.not_true, Bool.false_eq_true, if_false, gt_iff_lt, w2, if_true]
      obtain ⟨r1, r2, r3⟩ := ih (writeLoop write (List.take size file) fuel k 0
        (List.take size file).length).writes (List.drop size file)
        (by rw [List.length_drop]; omega)
      refine ⟨r1, ?_, ?_⟩
      · simp only [bytesAccepted_append, bytesAccepted_cons, w3, r2]
        simp [bytesAccepted, acceptedBy]
      · rw [blocksSent_append, r3, List.length_drop]
        have hb : blocksSent (Event.call (Call.fread size (List.take size file).length) ::
            (writeLoop write (List.take size file) fuel k 0 (List.take size file).length).events
              ++ [Event.blockSent]) = 1 := by
          rw [blocksSent_append]
          simp only [blocksSent] at w4 ⊢
          rw [List.count_cons, w4]; simp
        rw [hb]
        have hfl : 0 < file.length := by omega
        by_cases hc : size ≤ file.length
        · have : file.length + size - 1 = (file.length - size + size - 1) + size := by omega
          rw [this, Nat.add_div_right _ hpos]; omega
        · have h1 : file.length - size + size - 1 < size := by omega
          rw [Nat.div_eq_of_lt h1]
          have h2 : file.length + size - 1 = (file.length - 1) + size := by omega
          rw [h2, Nat.add_div_right _ hpos, Nat.div_eq_of_lt (by omega)]


/-! ## Which events each piece of code produces -/

theorem not_mem_of_kind {P : Event → Bool} {l : List Event} (h : ∀ e ∈ l, P e = true)
    {x : Event} (hx : P x = false) : x ∉ l := by
  intro hm
  have := h x hm
  rw [hx] at this
  exact Bool.noConfusion this

theorem kind_absurd {P : Event → Bool} {l : List Event} (h : ∀ e ∈ l, P e = true)
    {x : Event} (hm : x ∈ l) (hx : P x = false) : False :=
  not_mem_of_kind h hx hm

theorem kind_append {P : Event → Bool} {a b : List Event} (ha : ∀ e ∈ a, P e = true)
    (hb : ∀ e ∈ b, P e = true) : ∀ e ∈ a ++ b, P e = true := by
  intro e he
  rcases List.mem_append.mp he with h | h
  · exact ha e h
  · exact hb e h

theorem kind_mono {P Q : Event → Bool} (hPQ : ∀ e, P e = true → Q e = true) {l : List Event}
    (h : ∀ e ∈ l, P e = true) : ∀ e ∈ l, Q e = true :=
  fun e he => hPQ e (h e he)

theorem byAuthenticate_of_byAgent (e : Event) (h : byAgent e = true) : byAuthenticate e = true := by
  cases e with
  | call c => cases c <;> first | rfl | exact Bool.noConfusion h
  | _ => first | rfl | exact Bool.noConfusion h

theorem byEnsure_of_byCheckDirectory (e : Event) (h : byCheckDirectory e = true) :
    byEnsure e = true := by
  cases e with
  | call c => cases c <;> first | rfl | exact Bool.noConfusion h
  | _ => first | rfl | exact Bool.noConfusion h

theorem bySftp_of_byEnsure (e : Event) (h : byEnsure e = true) : bySftp e = true := by
  cases e with
  | call c => cases c <;> first | rfl | exact Bool.noConfusion h
  | _ => first | rfl | exact Bool.noConfusion h

theorem bySftp_of_byProcessFile (e : Event) (h : byProcessFile e = true) : bySftp e = true := by
  cases e with
  | call c => cases c <;> first | rfl | exact Bool.noConfusion h
  | _ => first | rfl | exact Bool.noConfusion h

theorem byTransfer_of_byProcessFile (e : Event) (h : byProcessFile e = true) :
    byTransfer e = true := by
  cases e with
  | call c => cases c <;> first | rfl | exact Bool.noConfusion h
  | _ => first | rfl | exact Bool.noConfusion h

theorem byTransfer_of_byShutdown (e : Event) (h : byShutdown e = true) : byTransfer e = true := by
  cases e with
  | call c => cases c <;> first | rfl | exact Bool.noConfusion h
  | _ => first | rfl | exact Bool.noConfusion h

theorem trySshAgent_events (t : UploadThread) (w : World) :
    ∀ e ∈ (trySshAgent t w).events, byAgent e = true := by
  intro e he
  unfold trySshAgent at he
  dsimp only at he
  simp only [shutdownAgent] at he
  split_ifs at he <;> simp at he <;>
    rcases he with rfl | rfl | rfl | rfl | rfl | rfl | rfl | rfl | rfl <;> rfl

theorem shutdown_events (agent : Bool) : ∀ e ∈ shutdown agent, byShutdown e = true := by
  intro e he
  cases agent <;> simp [shutdown, shutdownAgent] at he <;>
    rcases he with rfl | rfl | rfl | rfl | rfl | rfl | rfl | rfl | rfl <;> rfl

theorem checkDirectory_events (r : Remote) (dir : String) :
    ∀ e ∈ (checkDirectory r dir).events, byCheckDirectory e = true := by
  intro e he
  unfold checkDirectory at he
  dsimp only at he
  split_ifs at he <;> simp at he <;> rcases he with rfl | rfl | rfl | rfl <;> rfl

theorem writeLoop_events (write : Nat → Nat → Int) (mem : List Nat) :
    ∀ fuel k ptr nread, ∀ e ∈ (writeLoop write mem fuel k ptr nread).events,
      byProcessFile e = true := by
  intro fuel
  induction fuel with
  | zero => intro k ptr nread e he; simp [writeLoop] at he
  | succ fuel ih =>
    intro k ptr nread e he
    unfold writeLoop at he
    dsimp only at he
    split_ifs at he
    · simp at he; subst he; rfl
    · simp at he
      rcases he with rfl | h
      · rfl
      · exact ih _ _ _ e h
    · simp at he; subst he; rfl

theorem chunkLoop_events (write : Nat → Nat → Int) (size : Nat) :
    ∀ fuel k file, ∀ e ∈ (chunkLoop write size fuel k file).events,
      byProcessFile e = true := by
  intro fuel
  induction fuel with
  | zero => intro k file e he; simp [chunkLoop] at he
  | succ fuel ih =>
    intro k file e he
    unfold chunkLoop at he
    dsimp only at he
    split_ifs at he
    · simp at he; subst he; rfl
    · simp at he
      rcases he with rfl | h
      · rfl
      · exact writeLoop_events write _ _ _ _ _ e h
    · simp at he
      rcases he with rfl | h | rfl | h
      · rfl
      · exact writeLoop_events write _ _ _ _ _ e h
      · rfl
      · exact ih _ _ e h
    · simp at he
      rcases he with rfl | h | rfl
      · rfl
      · exact writeLoop_events write _ _ _ _ _ e h
      · rfl

theorem processFile_events (t : UploadThread) (w : World) (fuel : Nat) (f : LocalFile) :
    ∀ e ∈ (processFile t w fuel f).events, byProcessFile e = true := by
  intro e he
  unfold processFile at he
  dsimp only at he
  split_ifs at he <;> simp at he
  · rcases he with rfl | rfl <;> rfl
  · rcases he with rfl | rfl | rfl | rfl | rfl | rfl <;> rfl
  · rcases he with rfl | rfl | rfl | rfl | rfl | h
    · rfl
    · rfl
    · rfl
    · rfl
    · rfl
    · exact chunkLoop_events _ _ _ _ _ e h
  · rcases he with rfl | rfl | rfl | rfl | rfl | h | rfl | rfl | rfl
    · rfl
    · rfl
    · rfl
    · rfl
    · rfl
    · exact chunkLoop_events _ _ _ _ _ e h
    · rfl
    · rfl
    · rfl

theorem transferFiles_events (t : UploadThread) (w : World) (fuel : Nat) :
    ∀ files, ∀ e ∈ (transferFiles t w fuel files).events, byProcessFile e = true := by
  intro files
  induction files with
  | nil => intro e he; simp [transferFiles] at he
  | cons f fs ih =>
    intro e he
    unfold transferFiles at he
    dsimp only at he
    split at he
    · exact processFile_events t w fuel f e he
    · exact processFile_events t w fuel f e he
    · simp at he
      rcases he with h | h
      · exact processFile_events t w fuel f e h
      · exact ih e h


/-! ## The chunk loop under writes that make progress -/

/-- With both opens succeeding, a positive buffer size and writes that make progress,
`processFile` returns `true` once the iteration bound exceeds the file length; the bytes accepted
are the file, and there is one `blockSent` per started chunk. -/
theorem processFile_of_progress (t : UploadThread) (w : World) (fuel : Nat) (f : LocalFile)
    (hB : 0 < t.buffersize) (hB2 : t.buffersize < 2 ^ 64)
    (hlocal : f.fopen = true)
    (hremote : w.libssh2_sftp_open (toLatin1 (t.server_path_meeting ++ "/" ++ f.name)) = true)
    (hw : WritesProgress
      (w.libssh2_sftp_write (toLatin1 (t.server_path_meeting ++ "/" ++ f.name))))
    (hfuel : f.content.length < fuel) :
    (processFile t w fuel f).result = some true ∧
    bytesAccepted (processFile t w fuel f).events = f.content ∧
    blocksSent (processFile t w fuel f).events
      = (f.content.length + t.buffersize.toNat - 1) / t.buffersize.toNat := by
  obtain ⟨c1, c2, c3⟩ := chunkLoop_of_progress _ hw t.buffersize.toNat (by omega) (by omega)
    fuel 0 f.content hfuel
  unfold processFile
  simp only [hlocal, hremote, c1, Bool.not_true, Bool.false_eq_true, if_false]
  refine ⟨trivial, ?_, ?_⟩
  · simp only [bytesAccepted_append, c2]
    simp [bytesAccepted, acceptedBy]
  · simp only [blocksSent_append, c3]
    simp [blocksSent]

/-- The transfer loop over files that all open, with writes that make progress: every file is
processed, and the `blockSent` signals add up file by file. -/
theorem transferFiles_of_progress (t : UploadThread) (w : World) (fuel : Nat)
    (hB : 0 < t.buffersize) (hB2 : t.buffersize < 2 ^ 64)
    (hremote : ∀ p, w.libssh2_sftp_open p = true)
    (hw : ∀ p, WritesProgress (w.libssh2_sftp_write p)) :
    ∀ files : List LocalFile,
      (∀ f ∈ files, f.fopen = true ∧ f.content.length < fuel) →
      (transferFiles t w fuel files).result = some true ∧
      blocksSent (transferFiles t w fuel files).events
        = (files.map (fun f =>
            (f.content.length + t.buffersize.toNat - 1) / t.buffersize.toNat)).sum := by
  intro files
  induction files with
  | nil => intro _; simp [transferFiles, blocksSent]
  | cons f fs ih =>
    intro h
    obtain ⟨hf1, hf2⟩ := h f (List.mem_cons_self _ _)
    obtain ⟨p1, _, p3⟩ := processFile_of_progress t w fuel f hB hB2 hf1 (hremote _) (hw _) hf2
    obtain ⟨q1, q2⟩ := ih (fun g hg => h g (List.mem_cons_of_mem _ hg))
    unfold transferFiles
    simp only [p1]
    refine ⟨q1, ?_⟩
    simp only [blocksSent_append, p3, q2, List.map_cons, List.sum_cons]

/-- C6: with a positive buffer size, both opens succeeding and every write answering with a count
between 1 and the number of bytes offered, `processFile` terminates (any iteration bound above the
file length is enough) and returns `true`, and the byte ranges accepted by the writes, in call
order, concatenate to exactly the content of the local file, whatever its length. -/
theorem processFile_round_trip (t : UploadThread) (w : World) (fuel : Nat) (f : LocalFile)
    (hB : 0 < t.buffersize) (hB2 : t.buffersize < 2 ^ 64)
    (hlocal : f.fopen = true)
    (hremote : w.libssh2_sftp_open (toLatin1 (t.server_path_meeting ++ "/" ++ f.name)) = true)
    (hw : ∀ k n, 0 < n →
      1 ≤ w.libssh2_sftp_write (toLatin1 (t.server_path_meeting ++ "/" ++ f.name)) k n ∧
      w.libssh2_sftp_write (toLatin1 (t.server_path_meeting ++ "/" ++ f.name)) k n ≤ n)
    (hfuel : f.content.length < fuel) :
    (processFile t w fuel f).result = some true ∧
    bytesAccepted (processFile t w fuel f).events = f.content :=
  ⟨(processFile_of_progress t w fuel f hB hB2 hlocal hremote hw hfuel).1,
   (processFile_of_progress t w fuel f hB hB2 hlocal hremote hw hfuel).2.1⟩

/-- C6 at a file of three bytes, a buffer of two bytes and a server that takes one byte per write. -/
theorem processFile_round_trip_witness :
    (processFile (setPaths smallThread) slowWorld 4
      { name := "video.avi", size := 3, fopen := true, content := [70, 70, 65] }).result
      = some true ∧
    bytesAccepted (processFile (setPaths smallThread) slowWorld 4
      { name := "video.avi", size := 3, fopen := true, content := [70, 70, 65] }).events
      = [70, 70, 65] :=
  processFile_round_trip (setPaths smallThread) slowWorld 4
    { name := "video.avi", size := 3, fopen := true, content := [70, 70, 65] }
    (by decide) (by decide) rfl rfl
    (fun k n hn => ⟨by simp [slowWorld], by simp [slowWorld]; omega⟩) (by decide)

/-- Files of `0`, `B` and `B + 1` bytes, buffer size `B`, writes that make progress: all three
files are processed and three `blockSent` signals are emitted. -/
theorem transferFiles_three (t : UploadThread) (w : World) (fuel B : Nat)
    (f0 f1 f2 : LocalFile)
    (hB : 0 < B) (hB2 : B < 2 ^ 64) (ht : t.buffersize = B)
    (hopen : f0.fopen = true ∧ f1.fopen = true ∧ f2.fopen = true)
    (hremote : ∀ p, w.libssh2_sftp_open p = true)
    (hw : ∀ p k n, 0 < n → 1 ≤ w.libssh2_sftp_write p k n ∧ w.libssh2_sftp_write p k n ≤ n)
    (h0 : f0.content.length = 0) (h1 : f1.content.length = B) (h2 : f2.content.length = B + 1)
    (hfuel : B + 1 < fuel) :
    (transferFiles t w fuel [f0, f1, f2]).result = some true ∧
    blocksSent (transferFiles t w fuel [f0, f1, f2]).events = 3 := by
  obtain ⟨r1, r2⟩ := transferFiles_of_progress t w fuel (by omega) (by omega) hremote hw
    [f0, f1, f2] (by
      intro f hf
      simp only [List.mem_cons, List.mem_singleton, List.not_mem_nil, or_false] at hf
      rcases hf with rfl | rfl | rfl
      · exact ⟨hopen.1, by omega⟩
      · exact ⟨hopen.2.1, by omega⟩
      · exact ⟨hopen.2.2, by omega⟩)
  refine ⟨r1, ?_⟩
  rw [r2, ht]
  simp only [List.map_cons, List.map_nil, List.sum_cons, List.sum_nil, h0, h1, h2, Int.toNat_ofNat]
  have e0 : (0 + B - 1) / B = 0 := Nat.div_eq_of_lt (by omega)
  have e1 : (B + B - 1) / B = 1 := by
    have : B + B - 1 = (B - 1) + B := by omega
    rw [this, Nat.add_div_right _ hB, Nat.div_eq_of_lt (by omega)]
  have e2 : (B + 1 + B - 1) / B = 2 := by
    have : B + 1 + B - 1 = 0 + B + B := by omega
    rw [this, Nat.add_div_right _ hB, Nat.add_div_right _ hB]; simp
  rw [e0, e1, e2]
  omega


/-- C7, as the code has it: with buffer size `B`, all opens succeeding and writes that make
progress, transferring files of `0`, `B` and `B + 1` bytes in this order processes all three and
emits `0 + 1 + 2 = 3` `blockSent` signals: an empty file gives none. -/
theorem transfer_three_files_blocks (t : UploadThread) (w : World) (fuel B : Nat)
    (f0 f1 f2 : LocalFile)
    (hB : 0 < B) (hB2 : B < 2 ^ 64) (ht : t.buffersize = B)
    (hopen : f0.fopen = true ∧ f1.fopen = true ∧ f2.fopen = true)
    (hremote : ∀ p, w.libssh2_sftp_open p = true)
    (hw : ∀ p k n, 0 < n → 1 ≤ w.libssh2_sftp_write p k n ∧ w.libssh2_sftp_write p k n ≤ n)
    (h0 : f0.content.length = 0) (h1 : f1.content.length = B) (h2 : f2.content.length = B + 1)
    (hfuel : B + 1 < fuel) :
    (transferFiles t w fuel [f0, f1, f2]).result = some true ∧
    blocksSent (transferFiles t w fuel [f0, f1, f2]).events = 3 :=
  transferFiles_three t w fuel B f0 f1 f2 hB hB2 ht hopen hremote hw h0 h1 h2 hfuel

/-- C7 at `B = 2`, files of 0, 2 and 3 bytes, and a server that takes one byte per write. -/
theorem transfer_three_files_blocks_witness :
    blocksSent (transferFiles (setPaths smallThread) slowWorld 4
      [{ name := "empty.txt", size := 0, fopen := true, content := [] },
       { name := "audio.wav", size := 2, fopen := true, content := [82, 73] },
       { name := "video.avi", size := 3, fopen := true, content := [70, 70, 65] }]).events = 3 :=
  (transfer_three_files_blocks (setPaths smallThread) slowWorld 4 2
    { name := "empty.txt", size := 0, fopen := true, content := [] }
    { name := "audio.wav", size := 2, fopen := true, content := [82, 73] }
    { name := "video.avi", size := 3, fopen := true, content := [70, 70, 65] }
    (by decide) (by decide) rfl ⟨rfl, rfl, rfl⟩ (fun _ => rfl)
    (fun p k n hn => ⟨by simp [slowWorld], by simp [slowWorld]; omega⟩)
    rfl rfl rfl (by decide)).2

/-- C7 as stated fails: with the buffer size of the constructor, `B = 102400`, and every write
taking all the bytes offered, files of `0`, `B` and `B + 1` bytes give three `blockSent` signals,
not four or more. -/
theorem transfer_three_files_not_four :
    blocksSent (transferFiles (setPaths demoThread) demoWorld 102402
      [{ name := "empty.txt", size := 0, fopen := true, content := [] },
       { name := "audio.wav", size := 102400, fopen := true,
         content := List.replicate 102400 0 },
       { name := "video.avi", size := 102401, fopen := true,
         content := List.replicate 102401 0 }]).events = 3 ∧
    ¬ 4 ≤ blocksSent (transferFiles (setPaths demoThread) demoWorld 102402
      [{ name := "empty.txt", size := 0, fopen := true, content := [] },
       { name := "audio.wav", size := 102400, fopen := true,
         content := List.replicate 102400 0 },
       { name := "video.avi", size := 102401, fopen := true,
         content := List.replicate 102401 0 }]).events := by
  have h3 := (transferFiles_three (setPaths demoThread) demoWorld 102402 102400
    { name := "empty.txt", size := 0, fopen := true, content := [] }
    { name := "audio.wav", size := 102400, fopen := true, content := List.replicate 102400 0 }
    { name := "video.avi", size := 102401, fopen := true, content := List.replicate 102401 0 }
    (by decide) (by decide) (by decide) ⟨rfl, rfl, rfl⟩ (fun _ => rfl)
    (fun p k n hn => ⟨by simp [demoWorld]; omega, by simp [demoWorld]⟩)
    rfl (List.length_replicate 102400 0) (List.length_replicate 102401 0) (by decide)).2
  exact ⟨h3, by rw [h3]; decide⟩


/-! ## The shape of a run -/

theorem trySshAgent_setPaths (t : UploadThread) (w : World) :
    trySshAgent (setPaths t) w = trySshAgent t w := rfl

theorem authenticate_events (t : UploadThread) (w : World) :
    ∀ e ∈ (authenticate t w).events, byAuthenticate e = true := by
  have ha := kind_mono byAuthenticate_of_byAgent (trySshAgent_events t w)
  intro e he
  unfold authenticate at he
  dsimp only at he
  split_ifs at he
  · simp at he
    rcases he with h | rfl | rfl | rfl | rfl | rfl | rfl | rfl | rfl <;>
      first | exact ha e h | rfl
  · simp at he
    rcases he with h | rfl | rfl | rfl | rfl | rfl | rfl | rfl | rfl | rfl <;>
      first | exact ha e h | rfl
  · simp at he
    rcases he with h | rfl | rfl | rfl | rfl | rfl | rfl | rfl | rfl | rfl <;>
      first | exact ha e h | rfl
  · simp at he
    rcases he with h | rfl | rfl | rfl | rfl | rfl <;>
      first | exact ha e h | rfl
  · exact ha e he

theorem authenticate_agent (t : UploadThread) (w : World) :
    (authenticate t w).agent = (trySshAgent t w).agent := by
  unfold authenticate
  dsimp only
  split_ifs <;> rfl

theorem authenticate_starts_with_agent (t : UploadThread) (w : World) :
    ∃ rest, (authenticate t w).events = (trySshAgent t w).events ++ rest := by
  unfold authenticate
  dsimp only
  split_ifs
  · exact ⟨_, by simp only [List.append_assoc]; rfl⟩
  · exact ⟨_, by simp only [List.append_assoc]; rfl⟩
  · exact ⟨_, by simp only [List.append_assoc]; rfl⟩
  · exact ⟨_, by simp only [List.append_assoc]; rfl⟩
  · exact ⟨[], by simp⟩

theorem authenticate_of_agent (t : UploadThread) (w : World)
    (h : (trySshAgent t w).agent = true) :
    (authenticate t w).events = (trySshAgent t w).events := by
  unfold authenticate
  simp [h]

theorem authenticate_of_keypair (t : UploadThread) (w : World)
    (h : (trySshAgent t w).agent = false) (hk : w.libssh2_userauth_publickey_fromfile = 0) :
    Event.passwordRequested ∉ (authenticate t w).events := by
  have ha := trySshAgent_events t w
  unfold authenticate
  simp only [h, hk]
  simp
  exact not_mem_of_kind ha rfl

theorem authenticate_of_neither (t : UploadThread) (w : World)
    (h : (trySshAgent t w).agent = false) (hk : w.libssh2_userauth_publickey_fromfile ≠ 0) :
    (authenticate t w).events.count Event.passwordRequested = 1 := by
  have ha : (trySshAgent t w).events.count Event.passwordRequested = 0 :=
    List.count_eq_zero.mpr (not_mem_of_kind (trySshAgent_events t w) rfl)
  unfold authenticate
  simp only [h, Bool.not_false, if_true]
  rw [if_pos hk]
  split_ifs <;> simp [List.count_cons, ha]

theorem authenticate_of_cancel (t : UploadThread) (w : World)
    (h : (trySshAgent t w).agent = false) (hk : w.libssh2_userauth_publickey_fromfile ≠ 0)
    (hp : w.setPassword = "") :
    (authenticate t w).ok = false ∧ (authenticate t w).agent = false ∧
    (authenticate t w).events = (trySshAgent t w).events ++
      [Event.uploadMessage "ssh-agent failed or not found, trying authentication without it",
       Event.uploadMessage ("using public key: " ++ (w.homePath ++ "/.ssh/id_rsa.pub")),
       Event.uploadMessage ("using private key: " ++ (w.homePath ++ "/.ssh/id_rsa")),
       Event.call (Call.libssh2_userauth_publickey_fromfile t.username
         (w.homePath ++ "/.ssh/id_rsa.pub") (w.homePath ++ "/.ssh/id_rsa") "password"),
       Event.uploadMessage ("authentication by public key failed: "
         ++ toString w.libssh2_userauth_publickey_fromfile),
       Event.uploadMessage "trying to authenticate with password",
       Event.passwordRequested,
       Event.uploadMessage "authentication by password cancelled"] := by
  unfold authenticate
  simp [h, hk, hp, UploadThread.setPassword]

theorem processFile_setPassword (t : UploadThread) (w : World) (fuel : Nat) (f : LocalFile)
    (p : String) : processFile (t.setPassword p) w fuel f = processFile t w fuel f := rfl

theorem transferFiles_setPassword (t : UploadThread) (w : World) (fuel : Nat) (p : String) :
    ∀ files, transferFiles (t.setPassword p) w fuel files = transferFiles t w fuel files := by
  intro files
  induction files with
  | nil => rfl
  | cons f fs ih =>
    unfold transferFiles
    rw [processFile_setPassword, ih]

theorem runSftp_setPassword (t : UploadThread) (w : World) (fuel : Nat) (p : String) :
    runSftp (t.setPassword p) w fuel = runSftp t w fuel := by
  unfold runSftp
  rw [transferFiles_setPassword]
  rfl

theorem runSftp_authenticate (t : UploadThread) (w : World) (fuel : Nat) :
    runSftp (authenticate t w).thread w fuel = runSftp t w fuel := by
  have h : (authenticate t w).thread = t ∨
      (authenticate t w).thread = t.setPassword w.setPassword := by
    unfold authenticate
    dsimp only
    split_ifs <;> simp
  rcases h with h | h
  · rw [h]
  · rw [h, runSftp_setPassword]

theorem runSftp_events (t : UploadThread) (w : World) (fuel : Nat) :
    ∀ e ∈ (runSftp t w fuel).events, bySftp e = true := by
  have hd1 := kind_mono bySftp_of_byEnsure
    (kind_mono byEnsure_of_byCheckDirectory (checkDirectory_events w.remote t.server_path_user))
  have hd2 := kind_mono bySftp_of_byEnsure
    (kind_mono byEnsure_of_byCheckDirectory (checkDirectory_events
      (checkDirectory w.remote t.server_path_user).remote t.server_path_meeting))
  have htr := kind_mono bySftp_of_byProcessFile (transferFiles_events t w fuel w.entryList)
  intro e he
  unfold runSftp at he
  dsimp only at he
  split_ifs at he
  · simp at he; rcases he with rfl | rfl | rfl <;> rfl
  · simp at he
    rcases he with rfl | rfl | h
    · rfl
    · rfl
    · exact hd1 e h
  · simp at he
    rcases he with rfl | rfl | h | h
    · rfl
    · rfl
    · exact hd1 e h
    · exact hd2 e h
  · split at he <;> simp at he
    · rcases he with rfl | rfl | h | h | rfl | h
      · rfl
      · rfl
      · exact hd1 e h
      · exact hd2 e h
      · rfl
      · exact htr e h
    · rcases he with rfl | rfl | h | h | rfl | h
      · rfl
      · rfl
      · exact hd1 e h
      · exact hd2 e h
      · rfl
      · exact htr e h
    · rcases he with rfl | rfl | h | h | rfl | h | rfl
      · rfl
      · rfl
      · exact hd1 e h
      · exact hd2 e h
      · rfl
      · exact htr e h
      · rfl


theorem afterAuth_of_bySftp (e : Event) (h : bySftp e = true) : afterAuth e = true := by
  simp [afterAuth, h]

theorem afterAuth_of_byShutdown (e : Event) (h : byShutdown e = true) : afterAuth e = true := by
  simp [afterAuth, h]

/-- A run that reaches authentication: connection events, then `runAuth`. -/
theorem run_shape (t : UploadThread) (w : World) (fuel : Nat) (h : reachesAuth t w) :
    ∃ pre, (∀ e ∈ pre, byConnect e = true) ∧
      (run t w fuel).events = pre ++ (runAuth (setPaths t) w fuel).events ∧
      (run t w fuel).returned = (runAuth (setPaths t) w fuel).returned := by
  obtain ⟨h1, h2, h3, h4, h5, h6, h7⟩ := h
  refine ⟨[Event.uploadMessage "uploadthread starting",
    Event.uploadMessage ("target directory: " ++ (setPaths t).server_path_meeting),
    Event.call Call.libssh2_init,
    Event.uploadMessage "libssh2 initialization successful",
    Event.call Call.socket,
    Event.call (Call.inet_addr (setPaths t).server_ip),
    Event.call Call.connect,
    Event.uploadMessage "connection established",
    Event.call Call.libssh2_session_init,
    Event.uploadMessage "libssh2 session initialization successful",
    Event.call Call.libssh2_session_set_blocking,
    Event.call Call.libssh2_session_handshake,
    Event.uploadMessage "session established",
    Event.call Call.libssh2_hostkey_hash,
    Event.uploadMessage (fingerprintMessage w.libssh2_hostkey_hash)], ?_, ?_, ?_⟩
  · intro e he
    simp at he
    rcases he with rfl | rfl | rfl | rfl | rfl | rfl | rfl | rfl | rfl | rfl | rfl | rfl | rfl |
      rfl | rfl <;> rfl
  · unfold run
    simp [h1, h2, h3, h4, h5, h6, h7]
  · unfold run
    simp [h1, h2, h3, h4, h5, h6, h7]

/-- The part of a run from authentication on: the authentication events, then events of the
sftp stretch and of the shutdown code. -/
theorem runAuth_shape (t : UploadThread) (w : World) (fuel : Nat) :
    ∃ tail, (∀ e ∈ tail, afterAuth e = true) ∧
      (runAuth t w fuel).events = (authenticate t w).events ++ tail := by
  have hs := kind_mono afterAuth_of_bySftp (runSftp_events (authenticate t w).thread w fuel)
  have hd := kind_mono afterAuth_of_byShutdown (shutdown_events (authenticate t w).agent)
  unfold runAuth
  dsimp only
  split_ifs with h1 h2
  · exact ⟨_, hd, rfl⟩
  · exact ⟨_, kind_append hs hd, by simp⟩
  · exact ⟨_, hs, by simp⟩

/-- A run that reaches authentication, in three parts. -/
theorem run_three_parts (t : UploadThread) (w : World) (fuel : Nat) (h : reachesAuth t w) :
    ∃ pre tail, (∀ e ∈ pre, byConnect e = true) ∧ (∀ e ∈ tail, afterAuth e = true) ∧
      (run t w fuel).events = pre ++ (authenticate (setPaths t) w).events ++ tail := by
  obtain ⟨pre, hpre, hev, _⟩ := run_shape t w fuel h
  obtain ⟨tail, htail, hra⟩ := runAuth_shape (setPaths t) w fuel
  exact ⟨pre, tail, hpre, htail, by rw [hev, hra, List.append_assoc]⟩

/-- C3: in a run that reaches authentication, `trySshAgent` is called, and
(1) if it returns a non-null agent, neither `libssh2_userauth_publickey_fromfile` is called nor
`passwordRequested` emitted; (2) if it returns `NULL` and the key pair authenticates,
`passwordRequested` is not emitted; (3) if it returns `NULL` and the key pair fails,
`passwordRequested` is emitted exactly once. -/
theorem authentication_precedence (t : UploadThread) (w : World) (fuel : Nat)
    (h : reachesAuth t w) :
    (trySshAgent t w).events <:+: (run t w fuel).events ∧
    ((trySshAgent t w).agent = true →
      (∀ u pub pri pass,
        Event.call (Call.libssh2_userauth_publickey_fromfile u pub pri pass)
          ∉ (run t w fuel).events) ∧
      Event.passwordRequested ∉ (run t w fuel).events) ∧
    ((trySshAgent t w).agent = false → w.libssh2_userauth_publickey_fromfile = 0 →
      Event.passwordRequested ∉ (run t w fuel).events) ∧
    ((trySshAgent t w).agent = false → w.libssh2_userauth_publickey_fromfile ≠ 0 →
      (run t w fuel).events.count Event.passwordRequested = 1) := by
  obtain ⟨pre, tail, hpre, htail, hev⟩ := run_three_parts t w fuel h
  have hpre0 : Event.passwordRequested ∉ pre := not_mem_of_kind hpre rfl
  have htail0 : Event.passwordRequested ∉ tail := not_mem_of_kind htail rfl
  rw [hev]
  refine ⟨?_, ?_, ?_, ?_⟩
  · obtain ⟨rest, hrest⟩ := authenticate_starts_with_agent (setPaths t) w
    rw [trySshAgent_setPaths] at hrest
    exact ⟨pre, rest ++ tail, by rw [hrest]; simp only [List.append_assoc]⟩
  · intro ha
    have hae := authenticate_of_agent (setPaths t) w ha
    rw [trySshAgent_setPaths] at hae
    rw [hae]
    refine ⟨?_, ?_⟩
    · intro u pub pri pass hm
      simp only [List.mem_append] at hm
      rcases hm with (hm | hm) | hm
      · exact kind_absurd hpre hm rfl
      · exact kind_absurd (trySshAgent_events t w) hm rfl
      · exact kind_absurd htail hm rfl
    · intro hm
      simp only [List.mem_append] at hm
      rcases hm with (hm | hm) | hm
      · exact hpre0 hm
      · exact kind_absurd (trySshAgent_events t w) hm rfl
      · exact htail0 hm
  · intro ha hk hm
    simp only [List.mem_append] at hm
    rcases hm with (hm | hm) | hm
    · exact hpre0 hm
    · exact authenticate_of_keypair (setPaths t) w ha hk hm
    · exact htail0 hm
  · intro ha hk
    rw [List.count_append, List.count_append, authenticate_of_neither (setPaths t) w ha hk,
      List.count_eq_zero.mpr hpre0, List.count_eq_zero.mpr htail0]


/-- C3 at a run without agent and key pair: the password is asked for once. -/
theorem authentication_precedence_witness :
    reachesAuth demoThread passwordWorld ∧
    (run demoThread passwordWorld 10).events.count Event.passwordRequested = 1 :=
  ⟨by decide,
   (authentication_precedence demoThread passwordWorld 10 (by decide)).2.2.2
     (by decide) (by decide)⟩

/-- C8: in a run that reaches authentication, when the agent and the key pair both fail and the
string passed to `setPassword` is empty, the run goes from the prompt to the shutdown code and
returns: no `libssh2_userauth_password`, no `libssh2_sftp_init`, no stat or mkdir, no `fopen` and no
`libssh2_sftp_open` is called. -/
theorem cancelled_password_goes_to_shutdown (t : UploadThread) (w : World) (fuel : Nat)
    (h : reachesAuth t w) (ha : (trySshAgent t w).agent = false)
    (hk : w.libssh2_userauth_publickey_fromfile ≠ 0) (hp : w.setPassword = "") :
    (run t w fuel).returned = true ∧
    (∃ pre, (run t w fuel).events =
      pre ++ [Event.passwordRequested,
              Event.uploadMessage "authentication by password cancelled"] ++ shutdown false) ∧
    (∀ u p, Event.call (Call.libssh2_userauth_password u p) ∉ (run t w fuel).events) ∧
    Event.call Call.libssh2_sftp_init ∉ (run t w fuel).events ∧
    (∀ p, Event.call (Call.libssh2_sftp_stat p) ∉ (run t w fuel).events) ∧
    (∀ p m, Event.call (Call.libssh2_sftp_mkdir p m) ∉ (run t w fuel).events) ∧
    (∀ p, Event.call (Call.fopen p) ∉ (run t w fuel).events) ∧
    (∀ p f m, Event.call (Call.libssh2_sftp_open p f m) ∉ (run t w fuel).events) := by
  obtain ⟨pre, hpre, hev, hret⟩ := run_shape t w fuel h
  obtain ⟨c1, c2, c3⟩ := authenticate_of_cancel (setPaths t) w ha hk hp
  rw [trySshAgent_setPaths] at c3
  have hra : runAuth (setPaths t) w fuel =
      { events := (authenticate (setPaths t) w).events ++ shutdown false, returned := true } := by
    unfold runAuth
    simp [c1, c2]
  rw [hra] at hev hret
  dsimp only at hev hret
  rw [c3] at hev
  have hag := trySshAgent_events t w
  have hsh := shutdown_events false
  have key : ∀ x : Event, byConnect x = false → byAgent x = false → byShutdown x = false →
      (∀ s, x ≠ Event.uploadMessage s) →
      (∀ u a b c, x ≠ Event.call (Call.libssh2_userauth_publickey_fromfile u a b c)) →
      x ≠ Event.passwordRequested → x ∉ (run t w fuel).events := by
    intro x x1 x2 x3 x4 x5 x6 hm
    rw [hev] at hm
    simp only [List.mem_append] at hm
    rcases hm with hm | (hm | hm) | hm
    · exact kind_absurd hpre hm x1
    · exact kind_absurd hag hm x2
    · simp only [List.mem_cons, List.mem_singleton, List.not_mem_nil, or_false] at hm
      rcases hm with hm | hm | hm | hm | hm | hm | hm | hm
      · exact x4 _ hm
      · exact x4 _ hm
      · exact x4 _ hm
      · exact x5 _ _ _ _ hm
      · exact x4 _ hm
      · exact x4 _ hm
      · exact x6 hm
      · exact x4 _ hm
    · exact kind_absurd hsh hm x3
  refine ⟨hret, ⟨pre ++ ((trySshAgent t w).events ++
      [Event.uploadMessage "ssh-agent failed or not found, trying authentication without it",
       Event.uploadMessage ("using public key: " ++ (w.homePath ++ "/.ssh/id_rsa.pub")),
       Event.uploadMessage ("using private key: " ++ (w.homePath ++ "/.ssh/id_rsa")),
       Event.call (Call.libssh2_userauth_publickey_fromfile (setPaths t).username
         (w.homePath ++ "/.ssh/id_rsa.pub") (w.homePath ++ "/.ssh/id_rsa") "password"),
       Event.uploadMessage ("authentication by public key failed: "
         ++ toString w.libssh2_userauth_publickey_fromfile),
       Event.uploadMessage "trying to authenticate with password"]), ?_⟩, ?_, ?_, ?_, ?_, ?_, ?_⟩
  · rw [hev]; simp
  · intro u p
    exact key _ rfl rfl rfl (by intro s; simp) (by intro u a b c; simp) (by simp)
  · exact key _ rfl rfl rfl (by intro s; simp) (by intro u a b c; simp) (by simp)
  · intro p
    exact key _ rfl rfl rfl (by intro s; simp) (by intro u a b c; simp) (by simp)
  · intro p m
    exact key _ rfl rfl rfl (by intro s; simp) (by intro u a b c; simp) (by simp)
  · intro p
    exact key _ rfl rfl rfl (by intro s; simp) (by intro u a b c; simp) (by simp)
  · intro p f m
    exact key _ rfl rfl rfl (by intro s; simp) (by intro u a b c; simp) (by simp)

/-- C8 at a run without agent and key pair in which the user cancels the prompt. -/
theorem cancelled_password_goes_to_shutdown_witness :
    (reachesAuth demoThread cancelWorld ∧ (trySshAgent demoThread cancelWorld).agent = false ∧
     cancelWorld.libssh2_userauth_publickey_fromfile ≠ 0 ∧ cancelWorld.setPassword = "") ∧
    (run demoThread cancelWorld 10).returned = true ∧
    Event.call Call.libssh2_sftp_init ∉ (run demoThread cancelWorld 10).events :=
  ⟨⟨by decide, by decide, by decide, by decide⟩,
   (cancelled_password_goes_to_shutdown demoThread cancelWorld 10
     (by decide) (by decide) (by decide) (by decide)).1,
   (cancelled_password_goes_to_shutdown demoThread cancelWorld 10
     (by decide) (by decide) (by decide) (by decide)).2.2.2.1⟩


/-! ## The size pass -/

theorem toInt64_of_range (x : Int) (h0 : -2 ^ 63 ≤ x) (h1 : x < 2 ^ 63) : toInt64 x = x := by
  unfold toInt64
  have : (x + 2 ^ 63) % 2 ^ 64 = x + 2 ^ 63 := by
    apply Int.emod_eq_of_lt <;> omega
  omega

theorem totalsize_foldl (files : List LocalFile) :
    ∀ acc : Int, 0 ≤ acc → (∀ f ∈ files, 0 ≤ f.size) →
      acc + (files.map LocalFile.size).sum < 2 ^ 63 →
      files.foldl (fun acc f => toInt64 (acc + f.size)) acc
        = acc + (files.map LocalFile.size).sum := by
  induction files with
  | nil => intro acc _ _ _; simp
  | cons f fs ih =>
    intro acc hacc hpos hfit
    have hf : 0 ≤ f.size := hpos f (List.mem_cons_self _ _)
    have hrest : 0 ≤ (fs.map LocalFile.size).sum := by
      apply List.sum_nonneg
      intro x hx
      obtain ⟨g, hg, rfl⟩ := List.mem_map.mp hx
      exact hpos g (List.mem_cons_of_mem _ hg)
    simp only [List.map_cons, List.sum_cons] at hfit
    simp only [List.foldl_cons, List.map_cons, List.sum_cons]
    rw [toInt64_of_range _ (by omega) (by omega),
      ih (acc + f.size) (by omega) (fun g hg => hpos g (List.mem_cons_of_mem _ hg)) (by omega)]
    omega

/-- With sizes that are not negative and a total that fits a `long long`, the value passed to
`nBlocks` is `floor(total / buffersize) + 1`. -/
theorem expectedBlocks_eq (t : UploadThread) (files : List LocalFile)
    (hB : 0 < t.buffersize) (hpos : ∀ f ∈ files, 0 ≤ f.size)
    (hfit : (files.map LocalFile.size).sum + 1 < 2 ^ 63) :
    expectedBlocks t files = (files.map LocalFile.size).sum / t.buffersize + 1 := by
  have hsum : 0 ≤ (files.map LocalFile.size).sum := by
    apply List.sum_nonneg
    intro x hx
    obtain ⟨g, hg, rfl⟩ := List.mem_map.mp hx
    exact hpos g hg
  have htot : totalsize files = (files.map LocalFile.size).sum := by
    unfold totalsize
    rw [totalsize_foldl files 0 (le_refl 0) hpos (by omega)]
    omega
  unfold expectedBlocks
  rw [htot, Int.tdiv_eq_ediv hsum (le_of_lt hB)]
  have hq0 : 0 ≤ (files.map LocalFile.size).sum / t.buffersize := Int.ediv_nonneg hsum (le_of_lt hB)
  have hq1 : (files.map LocalFile.size).sum / t.buffersize ≤ (files.map LocalFile.size).sum :=
    Int.ediv_le_self _ hsum
  exact toInt64_of_range _ (by omega) (by omega)

theorem checkDirectory_stat_mem (r : Remote) (dir : String) :
    Event.call (Call.libssh2_sftp_stat (toLatin1 dir)) ∈ (checkDirectory r dir).events := by
  unfold checkDirectory
  dsimp only
  split_ifs <;> simp

/-- The sftp stretch when `libssh2_sftp_init` and both `checkDirectory` calls succeed: the events
up to the second `checkDirectory`, then `nBlocks`, then the transfer. -/
theorem runSftp_size_pass (t : UploadThread) (w : World) (fuel : Nat)
    (h1 : w.libssh2_sftp_init = true)
    (h2 : (checkDirectory w.remote t.server_path_user).ok = true)
    (h3 : (checkDirectory (checkDirectory w.remote t.server_path_user).remote
      t.server_path_meeting).ok = true) :
    ∃ ens post, (runSftp t w fuel).events
        = ens ++ Event.nBlocks (expectedBlocks t w.entryList) :: post ∧
      (∀ e ∈ ens, byEnsure e = true) ∧ (∀ e ∈ post, byTransfer e = true) ∧
      Event.call (Call.libssh2_sftp_stat (toLatin1 t.server_path_user)) ∈ ens ∧
      Event.call (Call.libssh2_sftp_stat (toLatin1 t.server_path_meeting)) ∈ ens := by
  have hd1 := kind_mono byEnsure_of_byCheckDirectory
    (checkDirectory_events w.remote t.server_path_user)
  have hd2 := kind_mono byEnsure_of_byCheckDirectory (checkDirectory_events
      (checkDirectory w.remote t.server_path_user).remote t.server_path_meeting)
  have htr := kind_mono byTransfer_of_byProcessFile (transferFiles_events t w fuel w.entryList)
  have hens : ∀ e ∈ [Event.uploadMessage "libssh2_sftp_init()!",
      Event.call Call.libssh2_sftp_init] ++ (checkDirectory w.remote t.server_path_user).events
      ++ (checkDirectory (checkDirectory w.remote t.server_path_user).remote
        t.server_path_meeting).events, byEnsure e = true := by
    apply kind_append (kind_append _ hd1) hd2
    intro e he
    simp at he
    rcases he with rfl | rfl <;> rfl
  refine ⟨_, (transferFiles t w fuel w.entryList).events ++
    (if (transferFiles t w fuel w.entryList).result = some true
      then [Event.call Call.libssh2_sftp_shutdown] else []), ?_, hens, ?_, ?_, ?_⟩
  · unfold runSftp
    simp only [h1, h2, h3, Bool.not_true, Bool.false_eq_true, if_false]
    split <;> rename_i hres <;> simp [hres]
  · apply kind_append htr
    intro e he
    split_ifs at he
    · simp at he; subst he; rfl
    · simp at he
  · simp only [List.mem_append]
    exact Or.inl (Or.inr (checkDirectory_stat_mem _ _))
  · simp only [List.mem_append]
    exact Or.inr (checkDirectory_stat_mem _ _)


theorem beforeTransfer_of_byConnect (e : Event) (h : byConnect e = true) :
    beforeTransfer e = true := by
  simp [beforeTransfer, h]

theorem beforeTransfer_of_byAuthenticate (e : Event) (h : byAuthenticate e = true) :
    beforeTransfer e = true := by
  simp [beforeTransfer, h]

theorem beforeTransfer_of_byEnsure (e : Event) (h : byEnsure e = true) :
    beforeTransfer e = true := by
  simp [beforeTransfer, h]

/-- C10: in a run that reaches the size pass, with a positive buffer size, file sizes that are not
negative and a total that fits a `long long`, `nBlocks` is emitted exactly once, with the value
`floor(totalBytes / buffersize) + 1`; the stat calls of both `checkDirectory` calls come before it
and no stat or mkdir after it; no `fopen` (the first action of `processFile`) and no `blockSent`
come before it. -/
theorem nBlocks_once_with_expected_count (t : UploadThread) (w : World) (fuel : Nat)
    (h : reachesSizePass t w) (hB : 0 < t.buffersize)
    (hpos : ∀ f ∈ w.entryList, 0 ≤ f.size)
    (hfit : (w.entryList.map LocalFile.size).sum + 1 < 2 ^ 63) :
    ∃ pre post,
      (run t w fuel).events =
        pre ++ Event.nBlocks ((w.entryList.map LocalFile.size).sum / t.buffersize + 1) :: post ∧
      (∀ n, Event.nBlocks n ∉ pre) ∧ (∀ n, Event.nBlocks n ∉ post) ∧
      Event.call (Call.libssh2_sftp_stat (toLatin1 (setPaths t).server_path_user)) ∈ pre ∧
      Event.call (Call.libssh2_sftp_stat (toLatin1 (setPaths t).server_path_meeting)) ∈ pre ∧
      (∀ p, Event.call (Call.libssh2_sftp_stat p) ∉ post) ∧
      (∀ p m, Event.call (Call.libssh2_sftp_mkdir p m) ∉ post) ∧
      (∀ p, Event.call (Call.fopen p) ∉ pre) ∧
      Event.blockSent ∉ pre := by
  obtain ⟨hauth, hok, h1, h2, h3⟩ := h
  obtain ⟨c, hc, hev, _⟩ := run_shape t w fuel hauth
  obtain ⟨ens, post, hs, hens, hpost, hm1, hm2⟩ := runSftp_size_pass (setPaths t) w fuel h1 h2 h3
  have hblocks : expectedBlocks (setPaths t) w.entryList
      = (w.entryList.map LocalFile.size).sum / t.buffersize + 1 :=
    expectedBlocks_eq (setPaths t) w.entryList hB hpos hfit
  have hra : (runAuth (setPaths t) w fuel).events =
      (authenticate (setPaths t) w).events ++ (runSftp (setPaths t) w fuel).events ++
        (if (runSftp (setPaths t) w fuel).returned
          then shutdown (authenticate (setPaths t) w).agent else []) := by
    unfold runAuth
    simp only [hok, Bool.not_true, Bool.false_eq_true, if_false, runSftp_authenticate]
  have hpre : ∀ e ∈ c ++ (authenticate (setPaths t) w).events ++ ens,
      beforeTransfer e = true :=
    kind_append (kind_append (kind_mono beforeTransfer_of_byConnect hc)
      (kind_mono beforeTransfer_of_byAuthenticate (authenticate_events (setPaths t) w)))
      (kind_mono beforeTransfer_of_byEnsure hens)
  have hafter : ∀ e ∈ post ++ (if (runSftp (setPaths t) w fuel).returned
      then shutdown (authenticate (setPaths t) w).agent else []), byTransfer e = true := by
    apply kind_append hpost
    intro e he
    split_ifs at he
    · exact byTransfer_of_byShutdown e (shutdown_events _ e he)
    · simp at he
  refine ⟨c ++ (authenticate (setPaths t) w).events ++ ens,
    post ++ (if (runSftp (setPaths t) w fuel).returned
      then shutdown (authenticate (setPaths t) w).agent else []), ?_, ?_, ?_, ?_, ?_, ?_, ?_, ?_, ?_⟩
  · rw [hev, hra, hs, hblocks]
    simp only [List.append_assoc, List.cons_append]
  · intro n hm; exact kind_absurd hpre hm rfl
  · intro n hm; exact kind_absurd hafter hm rfl
  · exact List.mem_append_right _ hm1
  · exact List.mem_append_right _ hm2
  · intro p hm; exact kind_absurd hafter hm rfl
  · intro p m hm; exact kind_absurd hafter hm rfl
  · intro p hm; exact kind_absurd hpre hm rfl
  · intro hm; exact kind_absurd hpre hm rfl

/-- In a run that reaches authentication and returns, `uploadFinished` is emitted exactly once,
as the last event: these are the paths through the label `shutdown:`. -/
theorem run_uploadFinished_after_handshake (t : UploadThread) (w : World) (fuel : Nat)
    (h : reachesAuth t w) (hret : (run t w fuel).returned = true) :
    ∃ init, (run t w fuel).events = init ++ [Event.uploadFinished] ∧
      Event.uploadFinished ∉ init := by
  obtain ⟨c, hc, hev, hr⟩ := run_shape t w fuel h
  rw [hr] at hret
  have ha := authenticate_events (setPaths t) w
  have hs := runSftp_events (authenticate (setPaths t) w).thread w fuel
  have hshut : ∀ agent : Bool, ∃ body, shutdown agent = body ++ [Event.uploadFinished] ∧
      Event.uploadFinished ∉ body := by
    intro agent
    cases agent
    · exact ⟨[Event.call Call.libssh2_session_disconnect, Event.call Call.libssh2_session_free,
        Event.call Call.close, Event.uploadMessage "all done", Event.call Call.libssh2_exit,
        Event.uploadMessage "uploadthread ending"], rfl, by simp⟩
    · exact ⟨shutdownAgent ++ [Event.call Call.libssh2_session_disconnect,
        Event.call Call.libssh2_session_free,
        Event.call Call.close, Event.uploadMessage "all done", Event.call Call.libssh2_exit,
        Event.uploadMessage "uploadthread ending"], rfl, by simp [shutdownAgent]⟩
  obtain ⟨body, hbody, hbody0⟩ := hshut (authenticate (setPaths t) w).agent
  have hra : (runAuth (setPaths t) w fuel).events =
      (authenticate (setPaths t) w).events ++
        (if (authenticate (setPaths t) w).ok
          then (runSftp (authenticate (setPaths t) w).thread w fuel).events else []) ++
        shutdown (authenticate (setPaths t) w).agent := by
    unfold runAuth at hret ⊢
    dsimp only at hret ⊢
    split_ifs at hret ⊢ with h1 <;> simp_all
  rw [hev, hra, hbody]
  refine ⟨c ++ (((authenticate (setPaths t) w).events ++
        (if (authenticate (setPaths t) w).ok
          then (runSftp (authenticate (setPaths t) w).thread w fuel).events else [])) ++ body),
    by simp only [List.append_assoc], ?_⟩
  intro hm
  simp only [List.mem_append] at hm
  rcases hm with hm | (hm | hm) | hm
  · exact kind_absurd hc hm rfl
  · exact kind_absurd ha hm rfl
  · split_ifs at hm
    · exact kind_absurd hs hm rfl
    · simp at hm
  · exact hbody0 hm


/-- C10 at files of 0, 2 and 3 bytes and a buffer of two bytes: `nBlocks(3)`. -/
theorem nBlocks_once_with_expected_count_witness :
    (reachesSizePass smallThread demoWorld ∧ 0 < smallThread.buffersize ∧
     (∀ f ∈ demoWorld.entryList, 0 ≤ f.size) ∧
     (demoWorld.entryList.map LocalFile.size).sum + 1 < 2 ^ 63) ∧
    ∃ pre post, (run smallThread demoWorld 10).events = pre ++ Event.nBlocks 3 :: post ∧
      (∀ n, Event.nBlocks n ∉ pre) ∧ (∀ n, Event.nBlocks n ∉ post) :=
  ⟨⟨by decide, by decide, by decide, by decide⟩,
   (nBlocks_once_with_expected_count smallThread demoWorld 10
      (by decide) (by decide) (by decide) (by decide)).elim
     (fun pre hpre => hpre.elim
       (fun post hpost => ⟨pre, post, hpost.1, hpost.2.1, hpost.2.2.1⟩))⟩


/-! ## Theorems on the claims -/

theorem notSet_iff (x : String) :
    notSet x = true ↔ (x = "" ∨ startsWith x "MISSING" = true) := by
  simp [notSet]

/-- C2: when username, server_ip or server_path is empty or starts with "MISSING", `run` returns
after two messages, the second naming the first such field in the order username, server_ip,
server_path; the trace holds no call at all (no `libssh2_init`, socket, connect or session) and no
`nBlocks`. -/
theorem run_aborts_when_preference_not_set (t : UploadThread) (w : World) (fuel : Nat)
    (h : (t.username = "" ∨ startsWith t.username "MISSING" = true) ∨
         (t.server_ip = "" ∨ startsWith t.server_ip "MISSING" = true) ∨
         (t.server_path = "" ∨ startsWith t.server_path "MISSING" = true)) :
    (run t w fuel).returned = true ∧
    (run t w fuel).events =
      [Event.uploadMessage "uploadthread starting",
       Event.uploadMessage
         ((if notSet t.username then "username"
           else if notSet t.server_ip then "server_ip" else "server_path")
          ++ " not set, exiting")] ∧
    (∀ c, Event.call c ∉ (run t w fuel).events) ∧
    (∀ n, Event.nBlocks n ∉ (run t w fuel).events) := by
  rw [← notSet_iff, ← notSet_iff, ← notSet_iff] at h
  unfold run
  by_cases h1 : notSet t.username = true
  · simp [h1]
  · by_cases h2 : notSet t.server_ip = true
    · simp [h1, h2]
    · have h3 : notSet t.server_path = true := by tauto
      simp [h1, h2, h3]

/-- C2 at a thread whose user name is the placeholder "MISSING username". -/
theorem run_aborts_when_preference_not_set_witness :
    ((unsetThread.username = "" ∨ startsWith unsetThread.username "MISSING" = true) ∨
     (unsetThread.server_ip = "" ∨ startsWith unsetThread.server_ip "MISSING" = true) ∨
     (unsetThread.server_path = "" ∨ startsWith unsetThread.server_path "MISSING" = true)) ∧
    (run unsetThread demoWorld 0).events =
      [Event.uploadMessage "uploadthread starting",
       Event.uploadMessage "username not set, exiting"] :=
  ⟨by decide,
   (run_aborts_when_preference_not_set unsetThread demoWorld 0 (by decide)).2.1⟩


/-- C9: on a remote side modelled as a set of existing paths, for a path that is absent and whose
creation succeeds, two calls of `checkDirectory` make exactly one `libssh2_sftp_mkdir` call, in the
first call; both return `true`; the second call consists of the stat and the message
"server path ... exists". -/
theorem checkDirectory_twice (r : Remote) (dir : String)
    (habsent : toLatin1 dir ∉ r.paths) (hcreate : r.mkdirStatus (toLatin1 dir) = 0) :
    (checkDirectory r dir).ok = true ∧
    (checkDirectory (checkDirectory r dir).remote dir).ok = true ∧
    mkdirAttempts ((checkDirectory r dir).events ++
      (checkDirectory (checkDirectory r dir).remote dir).events) = 1 ∧
    mkdirAttempts (checkDirectory r dir).events = 1 ∧
    (checkDirectory (checkDirectory r dir).remote dir).events =
      [Event.call (Call.libssh2_sftp_stat (toLatin1 dir)),
       Event.uploadMessage ("server path " ++ dir ++ " exists")] := by
  have h1 : checkDirectory r dir =
      { events := [Event.call (Call.libssh2_sftp_stat (toLatin1 dir)),
                   Event.uploadMessage ("server path " ++ dir ++ " does not exist, creating it"),
                   Event.call (Call.libssh2_sftp_mkdir (toLatin1 dir) mkdirMode)]
        ok := true
        remote := { r with paths := toLatin1 dir :: r.paths } } := by
    simp [checkDirectory, Remote.stat, Remote.mkdir, habsent, hcreate,
      LIBSSH2_ERROR_SFTP_PROTOCOL]
  have h2 : checkDirectory { r with paths := toLatin1 dir :: r.paths } dir =
      { events := [Event.call (Call.libssh2_sftp_stat (toLatin1 dir)),
                   Event.uploadMessage ("server path " ++ dir ++ " exists")]
        ok := true
        remote := { r with paths := toLatin1 dir :: r.paths } } := by
    simp [checkDirectory, Remote.stat]
  rw [h1]
  simp only [h2]
  simp [mkdirAttempts, List.countP_cons]

/-- C9 at the path `/srv/meetings/u` on an empty remote side that accepts every mkdir. -/
theorem checkDirectory_twice_witness :
    (toLatin1 "/srv/meetings/u" ∉ demoWorld.remote.paths ∧
     demoWorld.remote.mkdirStatus (toLatin1 "/srv/meetings/u") = 0) ∧
    mkdirAttempts ((checkDirectory demoWorld.remote "/srv/meetings/u").events ++
      (checkDirectory (checkDirectory demoWorld.remote "/srv/meetings/u").remote
        "/srv/meetings/u").events) = 1 :=
  ⟨⟨by decide, by decide⟩,
   (checkDirectory_twice demoWorld.remote "/srv/meetings/u" (by decide) (by decide)).2.2.1⟩

/-- C1 (the code departs from the claim): a run that stops at the validation of a preference, or
at `libssh2_init`, `connect`, `libssh2_session_init` or `libssh2_session_handshake`, returns without
emitting `uploadFinished`. -/
theorem run_early_return_no_uploadFinished (t : UploadThread) (w : World) (fuel : Nat)
    (h : ¬ reachesAuth t w) :
    (run t w fuel).returned = true ∧ Event.uploadFinished ∉ (run t w fuel).events := by
  unfold reachesAuth at h
  unfold run
  dsimp only
  split_ifs <;> simp_all

/-- C1 at a thread on which `setPreferences` was never called: the user name is empty. -/
theorem run_early_return_no_uploadFinished_witness :
    ¬ reachesAuth (UploadThread.new "/home/u/meetings/m1") demoWorld ∧
    (run (UploadThread.new "/home/u/meetings/m1") demoWorld 0).returned = true ∧
    Event.uploadFinished ∉ (run (UploadThread.new "/home/u/meetings/m1") demoWorld 0).events :=
  ⟨by simp [reachesAuth, UploadThread.new, notSet],
   run_early_return_no_uploadFinished (UploadThread.new "/home/u/meetings/m1") demoWorld 0
     (by simp [reachesAuth, UploadThread.new, notSet])⟩

/-- C4 (the code departs from the claim): with an agent that holds the keys "old" and "new", of
which the server refuses the first and accepts the second, `trySshAgent` tries "old" only and
returns `NULL`. -/
theorem trySshAgent_gives_up_after_first_key :
    trySshAgent demoThread twoKeyWorld =
      { events := [Event.uploadMessage "trying to authenticate with ssh-agent",
                   Event.call Call.libssh2_agent_init,
                   Event.call Call.libssh2_agent_connect,
                   Event.call Call.libssh2_agent_list_identities,
                   Event.call Call.libssh2_agent_get_identity,
                   Event.call (Call.libssh2_agent_userauth "u" "old"),
                   Event.uploadMessage
                     "authentication with username u and public key old failed",
                   Event.call Call.libssh2_agent_disconnect,
                   Event.call Call.libssh2_agent_free]
        agent := false } ∧
    twoKeyWorld.libssh2_agent_get_identity (some { comment := "old" }) = (0, { comment := "new" }) ∧
    twoKeyWorld.libssh2_agent_userauth "u" { comment := "new" } = 0 := by
  decide

/-- C5 (the code departs from the claim): on a two-byte file whose first write answers -1,
`processFile` emits `blockSent`, reports "data sent successfully" and returns `true`. -/
theorem processFile_negative_write_returns_true :
    processFile (setPaths smallThread) failingWriteWorld 10
        { name := "audio.wav", size := 2, fopen := true, content := [82, 73] } =
      { events := [Event.call (Call.fopen "/home/u/meetings/m1/audio.wav"),
                   Event.uploadMessage "opened local file /home/u/meetings/m1/audio.wav",
                   Event.uploadMessage "libssh2_sftp_open() for /srv/meetings/u/m1/audio.wav",
                   Event.call (Call.libssh2_sftp_open "/srv/meetings/u/m1/audio.wav"
                     openFlags openMode),
                   Event.uploadMessage "libssh2_sftp_open() is done, now sending data",
                   Event.call (Call.fread 2 2),
                   Event.call (Call.libssh2_sftp_write [82, 73] (-1)),
                   Event.blockSent,
                   Event.call Call.libssh2_sftp_close,
                   Event.call Call.fclose,
                   Event.uploadMessage "data sent successfully"]
        result := some true } := by
  decide


/-! ## Further facts about the failure paths -/

/-- Whatever else the agent holds, a refusal of the first identity makes `trySshAgent` return
`NULL`. -/
theorem trySshAgent_first_refused (t : UploadThread) (w : World)
    (h : w.libssh2_agent_userauth t.username (w.libssh2_agent_get_identity none).2 ≠ 0) :
    (trySshAgent t w).agent = false := by
  unfold trySshAgent
  dsimp only
  split_ifs <;> rfl

/-- The only ways for `processFile` to return `false` are the two failed opens: a write error
never does. -/
theorem processFile_false_only_on_open (t : UploadThread) (w : World) (fuel : Nat)
    (f : LocalFile) (h : (processFile t w fuel f).result = some false) :
    f.fopen = false ∨
    w.libssh2_sftp_open (toLatin1 (t.server_path_meeting ++ "/" ++ f.name)) = false := by
  by_cases h1 : f.fopen = false
  · exact Or.inl h1
  · by_cases h2 : w.libssh2_sftp_open (toLatin1 (t.server_path_meeting ++ "/" ++ f.name)) = false
    · exact Or.inr h2
    · exfalso
      unfold processFile at h
      simp only [Bool.not_eq_false] at h1 h2
      simp only [h1, h2, Bool.not_true, Bool.false_eq_true, if_false] at h
      split_ifs at h
      · simp at h

end MeetingRecorder
